import Mathlib

/-!
Shallow embedding of the missile-defense simulation core in
src/src/types.ts: the entity types, the per-tick `update`, the fire
command `handleCanvasClick` (taken at world coordinates; the
client-to-canvas coordinate scaling is input capture outside the core),
the lifecycle commands `startGame` / `nextLevel`, and the configuration
constants.

Modelling conventions:
* JavaScript numbers are real numbers; the integer-valued counters
  (score, ammo, level, the formation timer and index) are integers or
  naturals, as they only ever hold integral values.
* Every `Math.random()` call site of the tick reads one dedicated field
  of an `Env` record, and `Date.now()` reads `Env.now`, so one `Env`
  value fixes one tick's draws.
* Entity ids (random strings in the source, never inspected by the
  logic) are naturals drawn from a fresh-id counter threaded through the
  tick and the fire command.
* `Array.prototype.forEach` loops that `splice` the array they walk are
  modelled index-faithfully: the loop visits indices 0 .. len-1 where
  len is the length when the loop starts, reading the element stored at
  the visited index at visit time (none when the array has shrunk below
  it).  An element shifted below the cursor by a removal is therefore
  not visited in that pass, exactly as in JavaScript.
-/

namespace Defense

noncomputable section

open scoped Classical

/-- types.ts `GameStatus`. -/
inductive GameStatus
  | START
  | PLAYING
  | WON
  | LOST
  | LEVEL_UP
deriving DecidableEq

/-- types.ts `Point`. -/
structure Point where
  x : ℝ
  y : ℝ

/-- types.ts `Rocket` (the attacker projectile). -/
structure Rocket where
  id : ℕ
  start : Point
  current : Point
  target : Point
  speed : ℝ
  angle : ℝ

/-- types.ts `Missile` (the interceptor). -/
structure Missile where
  id : ℕ
  start : Point
  current : Point
  target : Point
  speed : ℝ
  angle : ℝ
  towerId : ℤ

/-- types.ts `Explosion` (the blast). -/
structure Explosion where
  id : ℕ
  x : ℝ
  y : ℝ
  radius : ℝ
  maxRadius : ℝ
  growing : Bool

/-- types.ts `City` (the ground installation). -/
structure City where
  id : ℤ
  x : ℝ
  y : ℝ
  width : ℝ
  height : ℝ
  health : ℝ
  maxHealth : ℝ
  destroyed : Bool

/-- types.ts `Tower` (the battery). -/
structure Tower where
  id : ℤ
  x : ℝ
  y : ℝ
  targetX : ℝ
  targetY : ℝ
  ammo : ℤ
  maxAmmo : ℤ
  health : ℝ
  maxHealth : ℝ
  destroyed : Bool

/-- types.ts `Meteor` (decorative background debris). -/
structure Meteor where
  id : ℕ
  x : ℝ
  y : ℝ
  size : ℝ
  speedX : ℝ
  speedY : ℝ
  angle : ℝ

/-- types.ts `Plane` (the enemy aircraft). -/
structure Plane where
  id : ℕ
  x : ℝ
  y : ℝ
  targetY : ℝ
  health : ℝ
  maxHealth : ℝ
  speed : ℝ
  direction : ℝ
  destroyed : Bool
  lastFired : ℝ

/-- The refs of the App component that the simulation reads and writes:
status, score, level, the seven entity stores, and the formation
controller's timer and index. -/
structure GameState where
  status : GameStatus
  score : ℤ
  level : ℕ
  rockets : List Rocket
  missiles : List Missile
  explosions : List Explosion
  cities : List City
  towers : List Tower
  meteors : List Meteor
  planes : List Plane
  formationTimer : ℕ
  currentFormation : ℕ

/-- constants.ts `GAME_WIDTH`. -/
def GAME_WIDTH : ℝ := 800

/-- constants.ts `GAME_HEIGHT`. -/
def GAME_HEIGHT : ℝ := 600

/-- An entry of constants.ts `TOWER_POSITIONS`. -/
structure TowerConfig where
  id : ℤ
  x : ℝ
  y : ℝ
  maxAmmo : ℤ

/-- constants.ts `TOWER_POSITIONS`. -/
def TOWER_POSITIONS : List TowerConfig :=
  [⟨0, 40, 560, 300⟩, ⟨1, 220, 560, 300⟩, ⟨2, 400, 560, 300⟩,
   ⟨3, 580, 560, 300⟩, ⟨4, 760, 560, 300⟩]

/-- An entry of constants.ts `CITY_POSITIONS`. -/
structure CityConfig where
  id : ℤ
  x : ℝ
  y : ℝ

/-- constants.ts `CITY_POSITIONS`. -/
def CITY_POSITIONS : List CityConfig :=
  [⟨0, 110, 570⟩, ⟨1, 160, 570⟩, ⟨2, 300, 570⟩,
   ⟨3, 500, 570⟩, ⟨4, 650, 570⟩, ⟨5, 700, 570⟩]

/-- constants.ts `EXPLOSION_MAX_RADIUS`. -/
def EXPLOSION_MAX_RADIUS : ℝ := 70

/-- constants.ts `EXPLOSION_SPEED`. -/
def EXPLOSION_SPEED : ℝ := 1.5

/-- constants.ts `MISSILE_SPEED`. -/
def MISSILE_SPEED : ℝ := 8

/-- constants.ts `ROCKET_SPEED_MIN`. -/
def ROCKET_SPEED_MIN : ℝ := 0.5

/-- constants.ts `ROCKET_SPEED_MAX`. -/
def ROCKET_SPEED_MAX : ℝ := 1.5

/-- constants.ts `SPAWN_RATE` (probability per frame). -/
def SPAWN_RATE : ℝ := 0.015

/-- constants.ts `SCORE_PER_ROCKET`. -/
def SCORE_PER_ROCKET : ℤ := 20

/-- One tick's random draws and clock reading: one field for each
`Math.random()` call site reachable in `update`, plus `Date.now()`. -/
structure Env where
  now : ℝ
  meteorGateR : ℝ
  meteorSizeR : ℝ
  meteorSideR : ℝ
  meteorStartYR : ℝ
  meteorDriftR : ℝ
  meteorSpeedR : ℝ
  planeGateR : ℝ
  planeTypeR : ℝ
  planeSideR : ℝ
  planeAltR : ℝ
  planeSpeedR : ℝ
  rocketGateR : ℝ
  rocketPlaneR : ℝ
  rocketTargetR : ℝ
  rocketJitterR : ℝ
  rocketSpeedR : ℝ

/-- JavaScript `Math.atan2(y, x)` on the reals (the signed-zero corner
cases of the double-precision version collapse to the `x = 0` branch). -/
def atan2 (y x : ℝ) : ℝ :=
  if 0 < x then Real.arctan (y / x)
  else if x < 0 then
    (if 0 ≤ y then Real.arctan (y / x) + Real.pi
     else Real.arctan (y / x) - Real.pi)
  else
    (if 0 < y then Real.pi / 2
     else if y < 0 then -(Real.pi / 2)
     else 0)

/-- types.ts `distToSegment` (distance from `p` to the closed segment
from `v` to `w`). -/
def distToSegment (p v w : Point) : ℝ :=
  let l2 := (v.x - w.x) ^ 2 + (v.y - w.y) ^ 2
  if l2 = 0 then Real.sqrt ((p.x - v.x) ^ 2 + (p.y - v.y) ^ 2)
  else
    let t := ((p.x - v.x) * (w.x - v.x) + (p.y - v.y) * (w.y - v.y)) / l2
    let t2 := max 0 (min 1 t)
    Real.sqrt ((p.x - (v.x + t2 * (w.x - v.x))) ^ 2 +
               (p.y - (v.y + t2 * (w.y - v.y))) ^ 2)

/-- Rocket motion, types.ts lines 396-397: advance `current` by
`speed × (cos angle, sin angle)`. -/
def moveRocket (r : Rocket) : Rocket :=
  { r with current := ⟨r.current.x + Real.cos r.angle * r.speed,
                       r.current.y + Real.sin r.angle * r.speed⟩ }

/-- Impact damage to one city, types.ts lines 412-417: a non-destroyed
city within the 30×20 box around the impact loses 1 health and is
flagged destroyed once health drops to 0 or below. -/
def damageCity (impact : Point) (c : City) : City :=
  if c.destroyed = false ∧ |c.x - impact.x| < 30 ∧ |c.y - impact.y| < 20 then
    let h := c.health - 1
    { c with health := h, destroyed := if h ≤ 0 then true else c.destroyed }
  else c

/-- Impact damage to one tower, types.ts lines 418-423. -/
def damageTower (impact : Point) (t : Tower) : Tower :=
  if t.destroyed = false ∧ |t.x - impact.x| < 30 ∧ |t.y - impact.y| < 20 then
    let h := t.health - 1
    { t with health := h, destroyed := if h ≤ 0 then true else t.destroyed }
  else t

/-- One visit of the rocket pass (types.ts lines 395-427) at index `k`:
move the rocket stored there, and when its position has reached or
passed its target's y, push a blast at the moved position, damage every
city and tower near the impact, and splice the rocket out. -/
def rocketVisit (s : GameState) (nid : ℕ) (k : ℕ) : GameState × ℕ :=
  match s.rockets.get? k with
  | none => (s, nid)
  | some r0 =>
    let r := moveRocket r0
    if r.current.y ≥ r.target.y then
      ({ s with
          rockets := (s.rockets.set k r).eraseIdx k,
          explosions := s.explosions ++
            [⟨nid, r.current.x, r.current.y, 0, EXPLOSION_MAX_RADIUS, true⟩],
          cities := s.cities.map (damageCity r.current),
          towers := s.towers.map (damageTower r.current) }, nid + 1)
    else
      ({ s with rockets := s.rockets.set k r }, nid)

/-- The rocket pass's `forEach`: visit the listed indices in order. -/
def rocketsLoop : List ℕ → GameState → ℕ → GameState × ℕ
  | [], s, nid => (s, nid)
  | k :: ks, s, nid =>
    let p := rocketVisit s nid k
    rocketsLoop ks p.1 p.2

/-- The rocket pass over indices 0 .. length-1 of the store at entry. -/
def updateRockets (s : GameState) (nid : ℕ) : GameState × ℕ :=
  rocketsLoop (List.range s.rockets.length) s nid

/-- Missile motion, types.ts lines 431-432. -/
def moveMissile (m : Missile) : Missile :=
  { m with current := ⟨m.current.x + Real.cos m.angle * m.speed,
                       m.current.y + Real.sin m.angle * m.speed⟩ }

/-- The beam-versus-rockets scan of one missile, types.ts lines 435-442:
visit the listed rocket indices; a rocket within 8 units of the
start-to-current segment is spliced out and scores `SCORE_PER_ROCKET`. -/
def laserRockets (mstart mcur : Point) :
    List ℕ → List Rocket → ℤ → List Rocket × ℤ
  | [], rs, sc => (rs, sc)
  | k :: ks, rs, sc =>
    match rs.get? k with
    | none => laserRockets mstart mcur ks rs sc
    | some r =>
      if distToSegment r.current mstart mcur < 8 then
        laserRockets mstart mcur ks (rs.eraseIdx k) (sc + SCORE_PER_ROCKET)
      else laserRockets mstart mcur ks rs sc

/-- The beam-versus-planes scan of one missile, types.ts lines 444-456:
an active plane within 12 units of the beam takes 0.03 damage; on
reaching 0 or below it is destroyed and scores 10. -/
def laserPlanes (mstart mcur : Point) : List Plane → ℤ → List Plane × ℤ
  | [], sc => ([], sc)
  | p :: ps, sc =>
    let pr :=
      if p.destroyed = false ∧ distToSegment ⟨p.x, p.y⟩ mstart mcur < 12 then
        let h := p.health - 0.03
        if h ≤ 0 then ({ p with health := h, destroyed := true }, sc + 10)
        else (({ p with health := h } : Plane), sc)
      else (p, sc)
    let rest := laserPlanes mstart mcur ps pr.2
    (pr.1 :: rest.1, rest.2)

/-- One visit of the missile pass (types.ts lines 430-474) at index `k`:
move the missile, run its beam over the rockets and planes, and when the
remaining distance to its aim point is below its speed, push a blast at
the aim point and splice the missile out. -/
def missileVisit (s : GameState) (nid : ℕ) (k : ℕ) : GameState × ℕ :=
  match s.missiles.get? k with
  | none => (s, nid)
  | some m0 =>
    let m := moveMissile m0
    let rp := laserRockets m.start m.current
      (List.range s.rockets.length) s.rockets s.score
    let pp := laserPlanes m.start m.current s.planes rp.2
    let dTarget := Real.sqrt ((m.target.x - m.current.x) ^ 2 +
                              (m.target.y - m.current.y) ^ 2)
    if dTarget < m.speed then
      ({ s with
          missiles := (s.missiles.set k m).eraseIdx k,
          rockets := rp.1, planes := pp.1, score := pp.2,
          explosions := s.explosions ++
            [⟨nid, m.target.x, m.target.y, 0, EXPLOSION_MAX_RADIUS, true⟩] },
       nid + 1)
    else
      ({ s with missiles := s.missiles.set k m,
                rockets := rp.1, planes := pp.1, score := pp.2 }, nid)

/-- The missile pass's `forEach`. -/
def missilesLoop : List ℕ → GameState → ℕ → GameState × ℕ
  | [], s, nid => (s, nid)
  | k :: ks, s, nid =>
    let p := missileVisit s nid k
    missilesLoop ks p.1 p.2

/-- The missile pass over indices 0 .. length-1 of the store at entry. -/
def updateMissiles (s : GameState) (nid : ℕ) : GameState × ℕ :=
  missilesLoop (List.range s.missiles.length) s nid

/-- The radius / phase / removal step of one blast, types.ts lines
478-486: while growing the radius gains `EXPLOSION_SPEED` and the phase
flips once the radius reaches the maximum; while shrinking it loses
`EXPLOSION_SPEED` and the blast is removed once the radius reaches 0.
Returns the updated blast and whether it was spliced out. -/
def expStep (e : Explosion) : Explosion × Bool :=
  if e.growing = true then
    let r := e.radius + EXPLOSION_SPEED
    ({ e with radius := r,
              growing := if r ≥ e.maxRadius then false else true }, false)
  else
    let r := e.radius - EXPLOSION_SPEED
    ({ e with radius := r }, if r ≤ 0 then true else false)

/-- Iterate `expStep` over ticks; `none` once the blast was removed. -/
def expRun : ℕ → Explosion → Option Explosion
  | 0, e => some e
  | n + 1, e =>
    let p := expStep e
    if p.2 = true then none else expRun n p.1

/-- The blast-versus-rockets scan, types.ts lines 489-496: a rocket
within the blast's current radius is spliced out and scores
`SCORE_PER_ROCKET`. -/
def blastRockets (e : Explosion) : List ℕ → List Rocket → ℤ → List Rocket × ℤ
  | [], rs, sc => (rs, sc)
  | k :: ks, rs, sc =>
    match rs.get? k with
    | none => blastRockets e ks rs sc
    | some r =>
      if Real.sqrt ((r.current.x - e.x) ^ 2 + (r.current.y - e.y) ^ 2)
          < e.radius then
        blastRockets e ks (rs.eraseIdx k) (sc + SCORE_PER_ROCKET)
      else blastRockets e ks rs sc

/-- The blast-versus-planes scan, types.ts lines 499-515: an active
plane within the radius takes 0.05 damage; on reaching 0 or below it is
destroyed and scores 10. -/
def blastPlanes (e : Explosion) : List Plane → ℤ → List Plane × ℤ
  | [], sc => ([], sc)
  | p :: ps, sc =>
    let pr :=
      if p.destroyed = false ∧
          Real.sqrt ((p.x - e.x) ^ 2 + (p.y - e.y) ^ 2) < e.radius then
        let h := p.health - 0.05
        if h ≤ 0 then ({ p with health := h, destroyed := true }, sc + 10)
        else (({ p with health := h } : Plane), sc)
      else (p, sc)
    let rest := blastPlanes e ps pr.2
    (pr.1 :: rest.1, rest.2)

/-- One visit of the blast pass (types.ts lines 477-516) at index `k`:
step the blast's radius and phase (splicing it out when done), then run
its area checks over the rockets and planes with the stepped radius. -/
def explosionVisit (s : GameState) (k : ℕ) : GameState :=
  match s.explosions.get? k with
  | none => s
  | some e0 =>
    let st := expStep e0
    let exps := if st.2 = true then (s.explosions.set k st.1).eraseIdx k
                else s.explosions.set k st.1
    let rp := blastRockets st.1 (List.range s.rockets.length) s.rockets s.score
    let pp := blastPlanes st.1 s.planes rp.2
    { s with explosions := exps, rockets := rp.1, planes := pp.1, score := pp.2 }

/-- The blast pass's `forEach`. -/
def explosionsLoop : List ℕ → GameState → GameState
  | [], s => s
  | k :: ks, s => explosionsLoop ks (explosionVisit s k)

/-- The blast pass over indices 0 .. length-1 of the store at entry. -/
def updateExplosions (s : GameState) : GameState :=
  explosionsLoop (List.range s.explosions.length) s

/-- The win / level-up / loss check, types.ts lines 518-529: when the
score has reached `level × 500` the status is set to WON (level ≥ 10) or
LEVEL_UP (level < 10); when every tower is destroyed the status is set
to LOST afterwards, so LOST wins when both fire in the same tick. -/
def checkStatus (s : GameState) : GameState :=
  let levelTarget : ℤ := (s.level : ℤ) * 500
  let st1 := if s.score ≥ levelTarget then
               (if s.level ≥ 10 then GameStatus.WON else GameStatus.LEVEL_UP)
             else s.status
  let st2 := if (s.towers.all fun t => t.destroyed) = true then GameStatus.LOST
             else st1
  { s with status := st2 }

/-- The formation target and exponential move of the tower at position
`i`, types.ts lines 311-334. -/
def formationTower (formation : ℕ) (i : ℕ) (tower : Tower) : Tower :=
  if tower.destroyed = true then tower
  else
    let basePos := TOWER_POSITIONS.getD i ⟨0, 0, 0, 0⟩
    let tx := basePos.x
    let ty :=
      if formation = 1 then
        let mid := TOWER_POSITIONS.length / 2
        basePos.y - 30 - |(i : ℝ) - (mid : ℝ)| * 40
      else if formation = 2 then
        let mid : ℝ := ((TOWER_POSITIONS.length : ℝ) - 1) / 2
        basePos.y - 80 + ((i : ℝ) - mid) ^ 2 * 8
      else basePos.y - 20
    { tower with
        targetX := tx, targetY := ty,
        x := tower.x + (tx - tower.x) * 0.03,
        y := tower.y + (ty - tower.y) * 0.03 }

/-- Apply `formationTower` along the tower list, indexed from `i`. -/
def formationTowers (formation : ℕ) : ℕ → List Tower → List Tower
  | _, [] => []
  | i, t :: ts => formationTower formation i t :: formationTowers formation (i + 1) ts

/-- types.ts `updatePlayerFormation` (lines 303-335): advance the tick
counter, and once it exceeds 400 reset it and advance the 3-valued
formation index round-robin; then move every non-destroyed tower 3% of
the way toward its formation target. -/
def updatePlayerFormation (s : GameState) : GameState :=
  let timer0 := s.formationTimer + 1
  let timer := if timer0 > 400 then 0 else timer0
  let formation := if timer0 > 400 then (s.currentFormation + 1) % 3
                   else s.currentFormation
  { s with formationTimer := timer, currentFormation := formation,
           towers := formationTowers formation 0 s.towers }

/-- The background-meteor spawn, types.ts lines 534-552. -/
def spawnMeteor (env : Env) (s : GameState) (nid : ℕ) : GameState × ℕ :=
  if env.meteorGateR < 0.005 then
    let size := 20 + env.meteorSizeR * 40
    let startX := if env.meteorSideR < 0.5 then -size else GAME_WIDTH + size
    let startY := env.meteorStartYR * (GAME_HEIGHT / 2)
    let targetX := if startX < 0 then GAME_WIDTH + size else -size
    let targetY := startY + (env.meteorDriftR * 200 - 100)
    let angle := atan2 (targetY - startY) (targetX - startX)
    let speed := 0.5 + env.meteorSpeedR * 1.5
    ({ s with meteors := s.meteors ++
        [⟨nid, startX, startY, size,
          Real.cos angle * speed, Real.sin angle * speed, angle⟩] }, nid + 1)
  else (s, nid)

/-- One visit of the meteor pass (types.ts lines 554-560) at index `k`. -/
def meteorVisit (s : GameState) (k : ℕ) : GameState :=
  match s.meteors.get? k with
  | none => s
  | some m0 =>
    let m := { m0 with x := m0.x + m0.speedX, y := m0.y + m0.speedY }
    if m.x < -200 ∨ m.x > GAME_WIDTH + 200 ∨ m.y < -200 ∨ m.y > GAME_HEIGHT + 200 then
      { s with meteors := (s.meteors.set k m).eraseIdx k }
    else { s with meteors := s.meteors.set k m }

/-- The meteor pass's `forEach`. -/
def meteorsLoop : List ℕ → GameState → GameState
  | [], s => s
  | k :: ks, s => meteorsLoop ks (meteorVisit s k)

/-- The meteor pass over indices 0 .. length-1 of the store at entry. -/
def updateMeteors (s : GameState) : GameState :=
  meteorsLoop (List.range s.meteors.length) s

/-- One visit of the plane pass (types.ts lines 563-581) at index `k`:
an active plane flies horizontally and oscillates around its target
altitude, and is spliced out past the horizontal margin; a destroyed
plane falls and is spliced out below the arena. -/
def planeVisit (s : GameState) (k : ℕ) : GameState :=
  match s.planes.get? k with
  | none => s
  | some p0 =>
    if p0.destroyed = false then
      let x1 := p0.x + p0.direction * p0.speed
      let p := { p0 with x := x1, y := p0.targetY + Real.sin (x1 * 0.02) * 20 }
      if p.x < -100 ∨ p.x > GAME_WIDTH + 100 then
        { s with planes := (s.planes.set k p).eraseIdx k }
      else { s with planes := s.planes.set k p }
    else
      let p := { p0 with y := p0.y + 3, x := p0.x + p0.direction * 0.5 }
      if p.y > GAME_HEIGHT then
        { s with planes := (s.planes.set k p).eraseIdx k }
      else { s with planes := s.planes.set k p }

/-- The plane pass's `forEach`. -/
def planesLoop : List ℕ → GameState → GameState
  | [], s => s
  | k :: ks, s => planesLoop ks (planeVisit s k)

/-- The plane pass over indices 0 .. length-1 of the store at entry. -/
def updatePlanes (s : GameState) : GameState :=
  planesLoop (List.range s.planes.length) s

/-- types.ts `spawnPlanes` (lines 238-301): population-capped,
probability-gated spawn of a solo plane, a 3-plane V, or a 3-plane line. -/
def spawnPlanes (env : Env) (s : GameState) (nid : ℕ) : GameState × ℕ :=
  let maxPlanes := 5 + s.level / 2
  if (s.planes.filter fun p => !p.destroyed).length ≥ maxPlanes then (s, nid)
  else
    let levelSpawnRate := 0.02 * (1 + ((s.level : ℝ) - 1) * 0.1)
    if env.planeGateR > levelSpawnRate then (s, nid)
    else
      let formationType := ⌊env.planeTypeR * 3⌋
      let direction : ℝ := if env.planeSideR < 0.5 then 1 else -1
      let startX := if direction = 1 then -50 else GAME_WIDTH + 50
      let baseTargetY := 50 + env.planeAltR * 150
      let speed := (1 + env.planeSpeedR * 1.5) * (1 + ((s.level : ℝ) - 1) * 0.1)
      let planeHealth : ℝ := 7 + ((s.level : ℝ) - 1)
      if formationType = 0 then
        ({ s with planes := s.planes ++
            [⟨nid, startX, baseTargetY, baseTargetY,
              planeHealth, planeHealth, speed, direction, false, 0⟩] }, nid + 1)
      else if formationType = 1 then
        ({ s with planes := s.planes ++
            [⟨nid, startX, baseTargetY, baseTargetY,
              planeHealth, planeHealth, speed, direction, false, 0⟩,
             ⟨nid + 1, startX + -direction * 40, baseTargetY + -40, baseTargetY + -40,
              planeHealth, planeHealth, speed, direction, false, 0⟩,
             ⟨nid + 2, startX + -direction * 40, baseTargetY + 40, baseTargetY + 40,
              planeHealth, planeHealth, speed, direction, false, 0⟩] }, nid + 3)
      else
        ({ s with planes := s.planes ++
            [⟨nid, startX + -direction * 0 * 60, baseTargetY, baseTargetY,
              planeHealth, planeHealth, speed, direction, false, 0⟩,
             ⟨nid + 1, startX + -direction * 1 * 60, baseTargetY, baseTargetY,
              planeHealth, planeHealth, speed, direction, false, 0⟩,
             ⟨nid + 2, startX + -direction * 2 * 60, baseTargetY, baseTargetY,
              planeHealth, planeHealth, speed, direction, false, 0⟩] }, nid + 3)

/-- Set `lastFired` of the `j`-th non-destroyed plane (the source
mutates the chosen element of the filtered view in place). -/
def setNthActive : List Plane → ℕ → ℝ → List Plane
  | [], _, _ => []
  | p :: ps, j, now =>
    if !p.destroyed then
      if j = 0 then { p with lastFired := now } :: ps
      else p :: setNthActive ps (j - 1) now
    else p :: setNthActive ps j now

/-- types.ts `spawnRocket` (lines 201-236): probability-gated launch of
one rocket from a uniformly chosen active plane (subject to a per-plane
cooldown; choosing the plane stamps its `lastFired` even when the later
no-target check aborts) at a uniformly chosen surviving city or tower
with horizontal jitter. -/
def spawnRocket (env : Env) (s : GameState) (nid : ℕ) : GameState × ℕ :=
  let levelSpawnRate := SPAWN_RATE * (1 + ((s.level : ℝ) - 1) * 0.2)
  if env.rocketGateR > levelSpawnRate then (s, nid)
  else
    let activePlanes := s.planes.filter fun p => !p.destroyed
    if activePlanes.length = 0 then (s, nid)
    else
      let j := (⌊env.rocketPlaneR * (activePlanes.length : ℝ)⌋).toNat
      match activePlanes.get? j with
      | none => (s, nid)
      | some plane =>
        let fireCooldown := max 300 (1000 - ((s.level : ℝ) - 1) * 100)
        if env.now - plane.lastFired < fireCooldown then (s, nid)
        else
          let planes1 := setNthActive s.planes j env.now
          let targets :=
            ((s.cities.filter fun c => !c.destroyed).map fun c => (⟨c.x, c.y⟩ : Point)) ++
            ((s.towers.filter fun t => !t.destroyed).map fun t => (⟨t.x, t.y⟩ : Point))
          if targets.length = 0 then ({ s with planes := planes1 }, nid)
          else
            match targets.get? (⌊env.rocketTargetR * (targets.length : ℝ)⌋).toNat with
            | none => ({ s with planes := planes1 }, nid)
            | some target =>
              let targetX := target.x + (env.rocketJitterR * 20 - 10)
              let targetY := target.y
              let angle := atan2 (targetY - plane.y) (targetX - plane.x)
              let speedMultiplier := 1 + ((s.level : ℝ) - 1) * 0.15
              let speed := (ROCKET_SPEED_MIN +
                env.rocketSpeedR * (ROCKET_SPEED_MAX - ROCKET_SPEED_MIN)) * speedMultiplier
              ({ s with planes := planes1,
                        rockets := s.rockets ++
                          [⟨nid, ⟨plane.x, plane.y⟩, ⟨plane.x, plane.y⟩,
                            ⟨targetX, targetY⟩, speed, angle⟩] }, nid + 1)

/-- types.ts `update` (lines 393-585): one tick, in source order —
rocket pass, missile pass, blast pass, win/loss/level-up check, player
formation, meteor spawn and pass, plane pass, plane spawn, rocket
spawn. -/
def update (env : Env) (s : GameState) (nid : ℕ) : GameState × ℕ :=
  let a := updateRockets s nid
  let b := updateMissiles a.1 a.2
  let c := updateExplosions b.1
  let d := checkStatus c
  let e := updatePlayerFormation d
  let f := spawnMeteor env e b.2
  let g := updateMeteors f.1
  let h := updatePlanes g
  let i := spawnPlanes env h f.2
  spawnRocket env i.1 i.2

/-- types.ts `gameLoop` (lines 896-902): a tick runs only while the
status is PLAYING. -/
def gameLoop (env : Env) (s : GameState) (nid : ℕ) : GameState × ℕ :=
  if s.status = GameStatus.PLAYING then update env s nid else (s, nid)

/-- The closest-eligible-tower scan of `handleCanvasClick` (types.ts
lines 359-371): walk the towers keeping the index and horizontal
distance of the best non-destroyed, ammo-holding tower seen so far
(`none` plays the role of the initial `minDist = Infinity`). -/
def bestTowerAux (x : ℝ) : List Tower → ℕ → Option (ℕ × ℝ) → Option (ℕ × ℝ)
  | [], _, best => best
  | t :: ts, i, best =>
    if t.destroyed = false ∧ t.ammo > 0 ∧
        (match best with
         | none => True
         | some pr => |t.x - x| < pr.2) then
      bestTowerAux x ts (i + 1) (some (i, |t.x - x|))
    else bestTowerAux x ts (i + 1) best

/-- types.ts `handleCanvasClick` (lines 337-391), taken at world
coordinates: in PLAYING, pick the nearest non-destroyed tower with ammo
by horizontal distance, deduct one ammo and push one missile from the
tower's position aimed at the click point; otherwise do nothing. -/
def handleCanvasClick (x y : ℝ) (s : GameState) (nid : ℕ) : GameState × ℕ :=
  if s.status = GameStatus.PLAYING then
    match bestTowerAux x s.towers 0 none with
    | none => (s, nid)
    | some pr =>
      match s.towers.get? pr.1 with
      | none => (s, nid)
      | some tower =>
        ({ s with
            towers := s.towers.set pr.1 { tower with ammo := tower.ammo - 1 },
            missiles := s.missiles ++
              [⟨nid, ⟨tower.x, tower.y⟩, ⟨tower.x, tower.y⟩, ⟨x, y⟩,
                MISSILE_SPEED, atan2 (y - tower.y) (x - tower.x), tower.id⟩] },
         nid + 1)
  else (s, nid)

/-- types.ts `initGame` (lines 156-199): clear every transient store,
rebuild cities and towers from configuration (keeping a surviving
tower's ammo only when `preserveAmmo`), zero the formation controller
and the score, and reset the level to 1 when `resetLevel`. -/
def initGame (resetLevel preserveAmmo : Bool) (s : GameState) : GameState :=
  { s with
    rockets := [], missiles := [], explosions := [],
    cities := CITY_POSITIONS.map fun p =>
      ⟨p.id, p.x, p.y, 40, 20, 2, 2, false⟩,
    towers := TOWER_POSITIONS.map fun p =>
      { id := p.id, x := p.x, y := p.y, targetX := p.x, targetY := p.y,
        ammo := if preserveAmmo = true then
                  (match s.towers.find? fun t => t.id == p.id with
                   | some t0 => t0.ammo
                   | none => p.maxAmmo)
                else p.maxAmmo,
        maxAmmo := p.maxAmmo, health := 5, maxHealth := 5, destroyed := false },
    meteors := [], planes := [],
    formationTimer := 0, currentFormation := 0,
    score := 0,
    level := if resetLevel = true then 1 else s.level }

/-- types.ts `startGame` (lines 915-918), also the restart command of
the WON / LOST overlays: full re-initialisation, then PLAYING. -/
def startGame (s : GameState) : GameState :=
  { initGame true false s with status := GameStatus.PLAYING }

/-- types.ts `nextLevel` (lines 920-924): increment the level,
re-initialise keeping ammo and the level, then PLAYING. -/
def nextLevel (s : GameState) : GameState :=
  { initGame false true { s with level := s.level + 1 } with
      status := GameStatus.PLAYING }

/-- An external event of one run: a scheduled tick or a fire command. -/
inductive Cmd
  | tick (env : Env)
  | fire (x y : ℝ)

/-- Apply one event to the simulation state and the fresh-id counter. -/
def runCmd : Cmd → GameState × ℕ → GameState × ℕ
  | Cmd.tick env, p => gameLoop env p.1 p.2
  | Cmd.fire x y, p => handleCanvasClick x y p.1 p.2

/-- Apply a sequence of events in order. -/
def runCmds : List Cmd → GameState × ℕ → GameState × ℕ
  | [], p => p
  | c :: cs, p => runCmds cs (runCmd c p)

/-- An environment whose draws fail every spawn gate, used to exercise
single ticks on concrete states. -/
def quietEnv : Env :=
  ⟨0, 1, 0, 0, 0, 0, 0, 1, 0, 0, 0, 0, 1, 0, 0, 0, 0⟩

/-- The state after the three collision passes of a tick (the state the
win/loss/level-up check of types.ts lines 518-529 inspects). -/
def postCollisions (s : GameState) (nid : ℕ) : GameState :=
  updateExplosions (updateMissiles (updateRockets s nid).1 (updateRockets s nid).2).1

/-- The phases of a tick that run after the win/loss/level-up check:
player formation, meteor spawn and pass, plane pass, plane spawn, rocket
spawn. -/
def updateTail (env : Env) (s : GameState) (nid : ℕ) : GameState × ℕ :=
  let f := spawnMeteor env (updatePlayerFormation s) nid
  let g := updateMeteors f.1
  let h := updatePlanes g
  let i := spawnPlanes env h f.2
  spawnRocket env i.1 i.2

end

end Defense

namespace Defense

noncomputable section

open scoped Classical

/-! ## Helper lemmas for the blast lifecycle -/

lemma expRun_succ (n : ℕ) (e : Explosion) :
    expRun (n + 1) e =
      if (expStep e).2 = true then none else expRun n (expStep e).1 := rfl

lemma expRun_add (m n : ℕ) (e : Explosion) :
    expRun (m + n) e = (expRun m e).bind (expRun n) := by
  induction m generalizing e with
  | zero => simp [expRun]
  | succ k ih =>
    rw [show k + 1 + n = (k + n) + 1 by omega, expRun_succ, expRun_succ]
    by_cases h : (expStep e).2 = true
    · simp [h]
    · simp [h, ih]

lemma expRun_growth (idv : ℕ) (x0 y0 : ℝ) :
    ∀ t : ℕ, t ≤ 46 →
      expRun t ⟨idv, x0, y0, 0, 70, true⟩ =
        some ⟨idv, x0, y0, 1.5 * (t : ℝ), 70, true⟩ := by
  intro t
  induction t with
  | zero => intro _; norm_num [expRun]
  | succ k ih =>
    intro hk
    have hk' : k ≤ 46 := by omega
    have hcast : (k : ℝ) ≤ 45 := by exact_mod_cast (by omega : k ≤ 45)
    rw [expRun_add k 1, ih hk']
    have hlt : ¬ ((1.5 * (k : ℝ) + EXPLOSION_SPEED) ≥ (70 : ℝ)) := by
      rw [EXPLOSION_SPEED]; nlinarith
    simp only [Option.bind_some, expRun_succ, expStep, EXPLOSION_SPEED]
    rw [EXPLOSION_SPEED] at hlt
    norm_num [hlt, expRun]
    exact ⟨by ring, by nlinarith⟩

lemma expRun_47 (idv : ℕ) (x0 y0 : ℝ) :
    expRun 47 ⟨idv, x0, y0, 0, 70, true⟩ =
      some ⟨idv, x0, y0, 70.5, 70, false⟩ := by
  rw [show (47 : ℕ) = 46 + 1 from rfl, expRun_add, expRun_growth idv x0 y0 46 le_rfl]
  have hge : (1.5 * (46 : ℝ) + EXPLOSION_SPEED) ≥ (70 : ℝ) := by
    rw [EXPLOSION_SPEED]; norm_num
  simp only [Option.bind_some, expRun_succ, expStep, EXPLOSION_SPEED]
  rw [EXPLOSION_SPEED] at hge
  norm_num [hge, expRun]

lemma expRun_shrink (idv : ℕ) (x0 y0 : ℝ) :
    ∀ k : ℕ, k ≤ 46 →
      expRun (47 + k) ⟨idv, x0, y0, 0, 70, true⟩ =
        some ⟨idv, x0, y0, 70.5 - 1.5 * (k : ℝ), 70, false⟩ := by
  intro k
  induction k with
  | zero => intro _; simpa using expRun_47 idv x0 y0
  | succ j ih =>
    intro hj
    have hj' : j ≤ 46 := by omega
    have hcast : (j : ℝ) ≤ 45 := by exact_mod_cast (by omega : j ≤ 45)
    rw [show 47 + (j + 1) = (47 + j) + 1 by omega, expRun_add, ih hj']
    have hpos : ¬ ((70.5 - 1.5 * (j : ℝ) - EXPLOSION_SPEED) ≤ (0 : ℝ)) := by
      rw [EXPLOSION_SPEED]; nlinarith
    simp only [Option.bind_some, expRun_succ, expStep, EXPLOSION_SPEED]
    rw [EXPLOSION_SPEED] at hpos
    norm_num [hpos, expRun]
    exact ⟨by nlinarith, by ring⟩

lemma expRun_94 (idv : ℕ) (x0 y0 : ℝ) :
    expRun 94 ⟨idv, x0, y0, 0, 70, true⟩ = none := by
  rw [show (94 : ℕ) = (47 + 46) + 1 by omega, expRun_add,
      expRun_shrink idv x0 y0 46 le_rfl]
  have hdone : (70.5 - 1.5 * (46 : ℝ) - EXPLOSION_SPEED) ≤ (0 : ℝ) := by
    rw [EXPLOSION_SPEED]; norm_num
  simp only [Option.bind_some, expRun_succ, expStep, EXPLOSION_SPEED]
  rw [EXPLOSION_SPEED] at hdone
  norm_num [hdone]

/-! ## C6 -/

/-- C6: a blast with max radius 70 and step 1.5 starting at radius 0
grows by 1.5 per tick while growing (radius `1.5 t` through tick 46),
flips to shrinking exactly at tick 47 — the first tick its radius
(70.5) reaches at least 70 — then shrinks by 1.5 per tick, stays alive
through tick 93, and is removed exactly at tick 94, its total lifetime
`2 × (70 / 1.5)` rounded up. -/
theorem C6_blast_lifecycle (idv : ℕ) (x0 y0 : ℝ) :
    (∀ t : ℕ, t ≤ 46 →
        expRun t ⟨idv, x0, y0, 0, 70, true⟩ =
          some ⟨idv, x0, y0, 1.5 * (t : ℝ), 70, true⟩) ∧
    (expRun 47 ⟨idv, x0, y0, 0, 70, true⟩ =
        some ⟨idv, x0, y0, 70.5, 70, false⟩) ∧
    (∀ k : ℕ, k ≤ 46 →
        expRun (47 + k) ⟨idv, x0, y0, 0, 70, true⟩ =
          some ⟨idv, x0, y0, 70.5 - 1.5 * (k : ℝ), 70, false⟩) ∧
    (∀ t : ℕ, t ≤ 93 → expRun t ⟨idv, x0, y0, 0, 70, true⟩ ≠ none) ∧
    (∀ t : ℕ, 94 ≤ t → expRun t ⟨idv, x0, y0, 0, 70, true⟩ = none) ∧
    (⌈2 * ((70 : ℚ) / 1.5)⌉ = 94) := by
  refine ⟨expRun_growth idv x0 y0, expRun_47 idv x0 y0, expRun_shrink idv x0 y0,
    ?_, ?_, ?_⟩
  · intro t ht
    by_cases h46 : t ≤ 46
    · rw [expRun_growth idv x0 y0 t h46]; simp
    · have : t = 47 + (t - 47) := by omega
      rw [this, expRun_shrink idv x0 y0 (t - 47) (by omega)]; simp
  · intro t ht
    have : t = 94 + (t - 94) := by omega
    rw [this, expRun_add, expRun_94 idv x0 y0]
    rfl
  · rw [Int.ceil_eq_iff]
    norm_num

/-! ## C10 -/

/-- C10: in every state other than PLAYING, the fire command changes
nothing — no ammo is deducted, no missile is created, every store is
left as it was. -/
theorem C10_fire_noop_outside_playing (x y : ℝ) (s : GameState) (nid : ℕ)
    (h : s.status ≠ GameStatus.PLAYING) :
    handleCanvasClick x y s nid = (s, nid) := by
  simp [handleCanvasClick, h]

theorem C10_fire_noop_outside_playing_witness :
    handleCanvasClick 100 100
      ⟨GameStatus.START, 0, 1, [], [], [], [],
       [⟨0, 40, 560, 40, 560, 300, 300, 5, 5, false⟩], [], [], 0, 0⟩ 0 =
      (⟨GameStatus.START, 0, 1, [], [], [], [],
        [⟨0, 40, 560, 40, 560, 300, 300, 5, 5, false⟩], [], [], 0, 0⟩, 0) :=
  C10_fire_noop_outside_playing 100 100 _ 0 (by decide)

/-! ## C9 -/

/-- C9: the restart command (`startGame`) produces the same initial
state whatever the state before the call — so two calls in succession
yield an identical initial state both times: PLAYING, score 0, level 1,
every transient store empty, and cities and towers rebuilt from the
configuration at full health and full ammo. -/
theorem C9_restart_idempotent (s s' : GameState) :
    startGame s = startGame s' ∧
    startGame (startGame s) = startGame s ∧
    (startGame s).status = GameStatus.PLAYING ∧
    (startGame s).score = 0 ∧
    (startGame s).level = 1 ∧
    (startGame s).rockets = [] ∧
    (startGame s).missiles = [] ∧
    (startGame s).explosions = [] ∧
    (startGame s).meteors = [] ∧
    (startGame s).planes = [] ∧
    (startGame s).cities =
      CITY_POSITIONS.map (fun p => ⟨p.id, p.x, p.y, 40, 20, 2, 2, false⟩) ∧
    (startGame s).towers =
      TOWER_POSITIONS.map (fun p =>
        ⟨p.id, p.x, p.y, p.x, p.y, p.maxAmmo, p.maxAmmo, 5, 5, false⟩) ∧
    (∀ t ∈ (startGame s).towers,
        t.ammo = t.maxAmmo ∧ t.health = t.maxHealth ∧ t.destroyed = false) ∧
    (∀ c ∈ (startGame s).cities,
        c.health = c.maxHealth ∧ c.destroyed = false) := by
  refine ⟨?_, ?_, rfl, rfl, rfl, rfl, rfl, rfl, rfl, rfl, ?_, ?_, ?_, ?_⟩
  · simp [startGame, initGame]
  · simp [startGame, initGame]
  · simp [startGame, initGame]
  · simp [startGame, initGame]
  · intro t ht
    simp [startGame, initGame, TOWER_POSITIONS] at ht
    rcases ht with h | h | h | h | h <;> subst h <;> norm_num
  · intro c hc
    simp [startGame, initGame, CITY_POSITIONS] at hc
    rcases hc with h | h | h | h | h | h <;> subst h <;> norm_num

end

end Defense

namespace Defense

noncomputable section

open scoped Classical

/-! ## Helper lemmas for the formation controller -/

lemma updatePlayerFormation_timer (s : GameState) :
    (updatePlayerFormation s).formationTimer =
      (if s.formationTimer + 1 > 400 then 0 else s.formationTimer + 1) ∧
    (updatePlayerFormation s).currentFormation =
      (if s.formationTimer + 1 > 400 then (s.currentFormation + 1) % 3
       else s.currentFormation) := ⟨rfl, rfl⟩

lemma formation_iterate (s : GameState) (h0 : s.formationTimer = 0) :
    ∀ n : ℕ, (updatePlayerFormation^[n] s).formationTimer = n % 401 ∧
      (updatePlayerFormation^[n] s).currentFormation =
        (if n < 401 then s.currentFormation
         else (s.currentFormation + n / 401) % 3) := by
  intro n
  induction n with
  | zero => exact ⟨by simpa using h0, by norm_num⟩
  | succ k ih =>
    rw [Function.iterate_succ_apply']
    obtain ⟨ht, hf⟩ := ih
    have hstep := updatePlayerFormation_timer (updatePlayerFormation^[k] s)
    rw [ht, hf] at hstep
    by_cases hc : k % 401 = 400
    · have hcond : k % 401 + 1 > 400 := by omega
      simp only [if_pos hcond] at hstep
      refine ⟨?_, ?_⟩
      · rw [hstep.1]; omega
      · rw [hstep.2]
        by_cases hk : k < 401
        · have hk400 : k = 400 := by omega
          rw [if_pos hk, if_neg (by omega : ¬ (k + 1 < 401))]
          subst hk400; norm_num
        · rw [if_neg hk, if_neg (by omega : ¬ (k + 1 < 401))]
          have hdiv : (k + 1) / 401 = k / 401 + 1 := by omega
          rw [hdiv]; omega
    · have hcond : ¬ (k % 401 + 1 > 400) := by omega
      simp only [if_neg hcond] at hstep
      refine ⟨?_, ?_⟩
      · rw [hstep.1]; omega
      · rw [hstep.2]
        by_cases hk : k < 401
        · rw [if_pos hk, if_pos (by omega : k + 1 < 401)]
        · rw [if_neg hk, if_neg (by omega : ¬ (k + 1 < 401))]
          have hdiv : (k + 1) / 401 = k / 401 := by omega
          rw [hdiv]

/-! ## C7 -/

/-- C7 counterexample: with the formation timer freshly reset and the
index at 0, after exactly 400 ticks the index is still 0 — the claimed
advance "exactly once every 400 ticks" has not happened; it happens at
the 401st tick. -/
theorem C7_formation_period_counterexample :
    (updatePlayerFormation^[400]
       ⟨GameStatus.PLAYING, 0, 1, [], [], [], [], [], [], [], 0, 0⟩).currentFormation = 0 ∧
    (updatePlayerFormation^[401]
       ⟨GameStatus.PLAYING, 0, 1, [], [], [], [], [], [], [], 0, 0⟩).currentFormation = 1 := by
  constructor
  · rw [(formation_iterate _ rfl 400).2]; norm_num
  · rw [(formation_iterate _ rfl 401).2]; norm_num

/-- C7 (amended): starting from a reset formation timer, the controller
advances its 3-valued index exactly once every 401 ticks (the timer is
incremented and only a value exceeding 400 — first reached at the 401st
tick — resets it and advances the index), cycling round-robin via
`(i + 1) % 3`: after `n` ticks the timer reads `n % 401` and the index
has advanced `n / 401` times. -/
theorem C7_formation_cycle (s : GameState) (h0 : s.formationTimer = 0)
    (h3 : s.currentFormation < 3) :
    (∀ n : ℕ,
       (updatePlayerFormation^[n] s).formationTimer = n % 401 ∧
       (updatePlayerFormation^[n] s).currentFormation =
         (s.currentFormation + n / 401) % 3) ∧
    (∀ u : GameState,
       (updatePlayerFormation u).currentFormation =
         (if u.formationTimer + 1 > 400 then (u.currentFormation + 1) % 3
          else u.currentFormation)) := by
  constructor
  · intro n
    obtain ⟨ht, hf⟩ := formation_iterate s h0 n
    refine ⟨ht, ?_⟩
    rw [hf]
    by_cases hn : n < 401
    · rw [if_pos hn]
      have hdiv : n / 401 = 0 := by omega
      rw [hdiv]
      omega
    · rw [if_neg hn]
  · intro u
    exact (updatePlayerFormation_timer u).2

theorem C7_formation_cycle_witness :
    (updatePlayerFormation^[802]
       ⟨GameStatus.PLAYING, 0, 1, [], [], [], [], [], [], [], 0, 1⟩).currentFormation = 0 := by
  rw [((C7_formation_cycle _ rfl (by norm_num)).1 802).2]
  norm_num

end

end Defense

namespace Defense

noncomputable section

open scoped Classical

/-! ## Helper lemmas for the closest-tower scan -/

lemma bta_some (x : ℝ) : ∀ (ts : List Tower) (i : ℕ) (pr : ℕ × ℝ),
    bestTowerAux x ts i (some pr) ≠ none := by
  intro ts
  induction ts with
  | nil => intro i pr; simp [bestTowerAux]
  | cons t ts ih =>
    intro i pr
    unfold bestTowerAux
    split_ifs with h
    · exact ih (i + 1) _
    · exact ih (i + 1) _

lemma bta_sound (x : ℝ) : ∀ (ts : List Tower) (i : ℕ) (acc : Option (ℕ × ℝ))
    (pr : ℕ × ℝ), bestTowerAux x ts i acc = some pr →
    acc = some pr ∨
    ∃ j t, ts.get? j = some t ∧ pr.1 = i + j ∧ t.destroyed = false ∧
      t.ammo > 0 ∧ pr.2 = |t.x - x| := by
  intro ts
  induction ts with
  | nil =>
    intro i acc pr h
    left
    simpa [bestTowerAux] using h
  | cons t ts ih =>
    intro i acc pr h
    unfold bestTowerAux at h
    split_ifs at h with hcond
    · rcases ih (i + 1) _ pr h with heq | ⟨j, u, hu, hj, h1, h2, h3⟩
      · right
        injection heq with heq2
        refine ⟨0, t, rfl, ?_, hcond.1, hcond.2.1, ?_⟩
        · simp [← heq2]
        · simp [← heq2]
      · right
        exact ⟨j + 1, u, by simpa using hu, by omega, h1, h2, h3⟩
    · rcases ih (i + 1) _ pr h with heq | ⟨j, u, hu, hj, h1, h2, h3⟩
      · left; exact heq
      · right
        exact ⟨j + 1, u, by simpa using hu, by omega, h1, h2, h3⟩

lemma bta_min (x : ℝ) : ∀ (ts : List Tower) (i : ℕ) (acc : Option (ℕ × ℝ))
    (pr : ℕ × ℝ), bestTowerAux x ts i acc = some pr →
    (∀ u ∈ ts, u.destroyed = false → u.ammo > 0 → pr.2 ≤ |u.x - x|) ∧
    (∀ q : ℕ × ℝ, acc = some q → pr.2 ≤ q.2) := by
  intro ts
  induction ts with
  | nil =>
    intro i acc pr h
    simp only [bestTowerAux] at h
    refine ⟨by simp, ?_⟩
    intro q hq
    rw [h] at hq
    exact le_of_eq (congrArg Prod.snd (Option.some.inj hq))
  | cons t ts ih =>
    intro i acc pr h
    unfold bestTowerAux at h
    split_ifs at h with hcond
    · obtain ⟨hmin, hacc⟩ := ih (i + 1) _ pr h
      have hle : pr.2 ≤ |t.x - x| := hacc (i, |t.x - x|) rfl
      refine ⟨?_, ?_⟩
      · intro u hu h1 h2
        rcases List.mem_cons.mp hu with rfl | hu'
        · exact hle
        · exact hmin u hu' h1 h2
      · intro q hq
        have hmatch := hcond.2.2
        rw [hq] at hmatch
        exact le_of_lt (lt_of_le_of_lt hle hmatch)
    · obtain ⟨hmin, hacc⟩ := ih (i + 1) _ pr h
      refine ⟨?_, hacc⟩
      intro u hu h1 h2
      rcases List.mem_cons.mp hu with rfl | hu'
      · cases hacc2 : acc with
        | none =>
          rw [hacc2] at hcond
          exact absurd ⟨h1, h2, trivial⟩ hcond
        | some q =>
          rw [hacc2] at hcond
          have hq : ¬ (|u.x - x| < q.2) := fun hlt => hcond ⟨h1, h2, hlt⟩
          exact le_trans (hacc q hacc2) (not_lt.mp hq)
      · exact hmin u hu' h1 h2

lemma bta_complete (x : ℝ) : ∀ (ts : List Tower) (i : ℕ) (acc : Option (ℕ × ℝ)),
    (∃ t ∈ ts, t.destroyed = false ∧ t.ammo > 0) →
    bestTowerAux x ts i acc ≠ none := by
  intro ts
  induction ts with
  | nil =>
    rintro i acc ⟨t, ht, -⟩
    cases ht
  | cons t ts ih =>
    rintro i acc ⟨u, hu, h1, h2⟩
    unfold bestTowerAux
    split_ifs with hcond
    · exact bta_some x ts (i + 1) _
    · rcases List.mem_cons.mp hu with rfl | hu'
      · cases acc with
        | none => exact absurd ⟨h1, h2, trivial⟩ hcond
        | some q => exact bta_some x ts (i + 1) q
      · exact ih (i + 1) acc ⟨u, hu', h1, h2⟩

/-! ## C5 -/

/-- C5: in PLAYING, the fire command at world point (x, y) is a no-op
exactly when no non-destroyed tower with ammo exists; otherwise the scan
yields a non-destroyed, ammo-holding tower whose horizontal distance to
x is minimal among all eligible towers, and the command deducts exactly
one ammo from that tower and appends exactly one missile launched from
its position at `(x, y)` with heading `atan2 (y - t.y) (x - t.x)`. -/
theorem C5_fire_selects_nearest (s : GameState) (nid : ℕ) (x y : ℝ)
    (hst : s.status = GameStatus.PLAYING) :
    (bestTowerAux x s.towers 0 none = none →
       handleCanvasClick x y s nid = (s, nid) ∧
       ∀ t ∈ s.towers, ¬ (t.destroyed = false ∧ t.ammo > 0)) ∧
    ((∃ t ∈ s.towers, t.destroyed = false ∧ t.ammo > 0) →
       bestTowerAux x s.towers 0 none ≠ none) ∧
    (∀ pr : ℕ × ℝ, bestTowerAux x s.towers 0 none = some pr →
       ∃ t, s.towers.get? pr.1 = some t ∧
         t.destroyed = false ∧ t.ammo > 0 ∧
         (∀ u ∈ s.towers, u.destroyed = false → u.ammo > 0 →
            |t.x - x| ≤ |u.x - x|) ∧
         handleCanvasClick x y s nid =
           ({ s with
               towers := s.towers.set pr.1 { t with ammo := t.ammo - 1 },
               missiles := s.missiles ++
                 [⟨nid, ⟨t.x, t.y⟩, ⟨t.x, t.y⟩, ⟨x, y⟩, MISSILE_SPEED,
                   atan2 (y - t.y) (x - t.x), t.id⟩] }, nid + 1)) := by
  refine ⟨?_, ?_, ?_⟩
  · intro hnone
    refine ⟨by simp [handleCanvasClick, hst, hnone], ?_⟩
    intro t ht hcontra
    exact bta_complete x s.towers 0 none ⟨t, ht, hcontra⟩ hnone
  · intro hex
    exact bta_complete x s.towers 0 none hex
  · intro pr hpr
    rcases bta_sound x s.towers 0 none pr hpr with heq | ⟨j, t, hj, hidx, h1, h2, hd⟩
    · cases heq
    · have hget : s.towers.get? pr.1 = some t := by
        rw [hidx]; simpa using hj
      refine ⟨t, hget, h1, h2, ?_, ?_⟩
      · intro u hu hu1 hu2
        have hm := (bta_min x s.towers 0 none pr hpr).1 u hu hu1 hu2
        rw [hd] at hm
        exact hm
      · simp only [handleCanvasClick, hst, if_pos, hpr, hget]

theorem C5_fire_selects_nearest_witness :
    (handleCanvasClick 40 300
       ⟨GameStatus.PLAYING, 0, 1, [], [], [], [],
        [⟨0, 40, 560, 40, 560, 300, 300, 5, 5, false⟩], [], [], 0, 0⟩ 0) =
      (⟨GameStatus.PLAYING, 0, 1, [],
        [⟨0, ⟨40, 560⟩, ⟨40, 560⟩, ⟨40, 300⟩, 8, -(Real.pi / 2), 0⟩], [], [],
        [⟨0, 40, 560, 40, 560, 299, 300, 5, 5, false⟩], [], [], 0, 0⟩, 1) := by
  have hb : bestTowerAux 40
      [⟨0, 40, 560, 40, 560, 300, 300, 5, 5, false⟩] 0 none = some (0, 0) := by
    norm_num [bestTowerAux]
  obtain ⟨t, hget, -, -, -, heq⟩ :=
    (C5_fire_selects_nearest
      ⟨GameStatus.PLAYING, 0, 1, [], [], [], [],
       [⟨0, 40, 560, 40, 560, 300, 300, 5, 5, false⟩], [], [], 0, 0⟩
      0 40 300 rfl).2.2 (0, 0) hb
  simp only [List.get?_cons_zero, Option.some.injEq] at hget
  subst hget
  rw [heq]
  have hangle : atan2 ((300 : ℝ) - 560) (40 - 40) = -(Real.pi / 2) := by
    norm_num [atan2]
  simp only [MISSILE_SPEED, hangle]
  norm_num

end

end Defense

namespace Defense

noncomputable section

open scoped Classical

/-! ## Frame lemmas: the phases after the status check touch neither the
status, the score, the level, nor any tower's destroyed flag -/

lemma formationTower_destroyed (f i : ℕ) (t : Tower) :
    (formationTower f i t).destroyed = t.destroyed := by
  unfold formationTower
  split_ifs <;> rfl

lemma formationTowers_destroyed (f : ℕ) :
    ∀ (i : ℕ) (ts : List Tower),
      (formationTowers f i ts).map Tower.destroyed = ts.map Tower.destroyed := by
  intro i ts
  induction ts generalizing i with
  | nil => rfl
  | cons t ts ih => simp [formationTowers, formationTower_destroyed, ih]

lemma updatePlayerFormation_frame (s : GameState) :
    (updatePlayerFormation s).status = s.status ∧
    (updatePlayerFormation s).score = s.score ∧
    (updatePlayerFormation s).level = s.level ∧
    (updatePlayerFormation s).towers.map Tower.destroyed =
      s.towers.map Tower.destroyed :=
  ⟨rfl, rfl, rfl, formationTowers_destroyed _ 0 s.towers⟩

lemma spawnMeteor_frame (env : Env) (s : GameState) (nid : ℕ) :
    (spawnMeteor env s nid).1.status = s.status ∧
    (spawnMeteor env s nid).1.score = s.score ∧
    (spawnMeteor env s nid).1.level = s.level ∧
    (spawnMeteor env s nid).1.towers = s.towers := by
  unfold spawnMeteor
  dsimp only
  repeat' split
  all_goals exact ⟨rfl, rfl, rfl, rfl⟩

lemma meteorVisit_frame (s : GameState) (k : ℕ) :
    (meteorVisit s k).status = s.status ∧
    (meteorVisit s k).score = s.score ∧
    (meteorVisit s k).level = s.level ∧
    (meteorVisit s k).towers = s.towers := by
  unfold meteorVisit
  dsimp only
  repeat' split
  all_goals exact ⟨rfl, rfl, rfl, rfl⟩

lemma meteorsLoop_frame (ks : List ℕ) (s : GameState) :
    (meteorsLoop ks s).status = s.status ∧
    (meteorsLoop ks s).score = s.score ∧
    (meteorsLoop ks s).level = s.level ∧
    (meteorsLoop ks s).towers = s.towers := by
  induction ks generalizing s with
  | nil => exact ⟨rfl, rfl, rfl, rfl⟩
  | cons k ks ih =>
    obtain ⟨h1, h2, h3, h4⟩ := ih (meteorVisit s k)
    obtain ⟨g1, g2, g3, g4⟩ := meteorVisit_frame s k
    exact ⟨h1.trans g1, h2.trans g2, h3.trans g3, h4.trans g4⟩

lemma planeVisit_frame (s : GameState) (k : ℕ) :
    (planeVisit s k).status = s.status ∧
    (planeVisit s k).score = s.score ∧
    (planeVisit s k).level = s.level ∧
    (planeVisit s k).towers = s.towers := by
  unfold planeVisit
  dsimp only
  repeat' split
  all_goals exact ⟨rfl, rfl, rfl, rfl⟩

lemma planesLoop_frame (ks : List ℕ) (s : GameState) :
    (planesLoop ks s).status = s.status ∧
    (planesLoop ks s).score = s.score ∧
    (planesLoop ks s).level = s.level ∧
    (planesLoop ks s).towers = s.towers := by
  induction ks generalizing s with
  | nil => exact ⟨rfl, rfl, rfl, rfl⟩
  | cons k ks ih =>
    obtain ⟨h1, h2, h3, h4⟩ := ih (planeVisit s k)
    obtain ⟨g1, g2, g3, g4⟩ := planeVisit_frame s k
    exact ⟨h1.trans g1, h2.trans g2, h3.trans g3, h4.trans g4⟩

lemma spawnPlanes_frame (env : Env) (s : GameState) (nid : ℕ) :
    (spawnPlanes env s nid).1.status = s.status ∧
    (spawnPlanes env s nid).1.score = s.score ∧
    (spawnPlanes env s nid).1.level = s.level ∧
    (spawnPlanes env s nid).1.towers = s.towers := by
  unfold spawnPlanes
  dsimp only
  repeat' split
  all_goals exact ⟨rfl, rfl, rfl, rfl⟩

lemma spawnRocket_frame (env : Env) (s : GameState) (nid : ℕ) :
    (spawnRocket env s nid).1.status = s.status ∧
    (spawnRocket env s nid).1.score = s.score ∧
    (spawnRocket env s nid).1.level = s.level ∧
    (spawnRocket env s nid).1.towers = s.towers := by
  unfold spawnRocket
  dsimp only
  repeat' split
  all_goals exact ⟨rfl, rfl, rfl, rfl⟩

lemma updateTail_frame (env : Env) (s : GameState) (nid : ℕ) :
    (updateTail env s nid).1.status = s.status ∧
    (updateTail env s nid).1.score = s.score ∧
    (updateTail env s nid).1.level = s.level ∧
    (updateTail env s nid).1.towers.map Tower.destroyed =
      s.towers.map Tower.destroyed := by
  unfold updateTail updateMeteors updatePlanes
  obtain ⟨u1, u2, u3, u4⟩ := updatePlayerFormation_frame s
  obtain ⟨m1, m2, m3, m4⟩ := spawnMeteor_frame env (updatePlayerFormation s) nid
  obtain ⟨l1, l2, l3, l4⟩ := meteorsLoop_frame
    (List.range (spawnMeteor env (updatePlayerFormation s) nid).1.meteors.length)
    (spawnMeteor env (updatePlayerFormation s) nid).1
  set g := meteorsLoop
    (List.range (spawnMeteor env (updatePlayerFormation s) nid).1.meteors.length)
    (spawnMeteor env (updatePlayerFormation s) nid).1 with hg
  obtain ⟨p1, p2, p3, p4⟩ := planesLoop_frame (List.range g.planes.length) g
  set h := planesLoop (List.range g.planes.length) g with hh
  obtain ⟨q1, q2, q3, q4⟩ := spawnPlanes_frame env h
    (spawnMeteor env (updatePlayerFormation s) nid).2
  set i := spawnPlanes env h (spawnMeteor env (updatePlayerFormation s) nid).2 with hi
  obtain ⟨r1, r2, r3, r4⟩ := spawnRocket_frame env i.1 i.2
  refine ⟨?_, ?_, ?_, ?_⟩
  · rw [r1, q1, p1, l1, m1, u1]
  · rw [r2, q2, p2, l2, m2, u2]
  · rw [r3, q3, p3, l3, m3, u3]
  · rw [r4, q4, p4, l4, m4, u4]

lemma update_eq_tail (env : Env) (s : GameState) (nid : ℕ) :
    update env s nid =
      updateTail env (checkStatus (postCollisions s nid))
        (updateMissiles (updateRockets s nid).1 (updateRockets s nid).2).2 := rfl

lemma checkStatus_frame (s : GameState) :
    (checkStatus s).score = s.score ∧ (checkStatus s).level = s.level ∧
    (checkStatus s).towers = s.towers := ⟨rfl, rfl, rfl⟩

lemma update_frame (env : Env) (s : GameState) (nid : ℕ) :
    (update env s nid).1.status = (checkStatus (postCollisions s nid)).status ∧
    (update env s nid).1.score = (postCollisions s nid).score ∧
    (update env s nid).1.level = (postCollisions s nid).level ∧
    (update env s nid).1.towers.map Tower.destroyed =
      (postCollisions s nid).towers.map Tower.destroyed := by
  rw [update_eq_tail]
  obtain ⟨t1, t2, t3, t4⟩ := updateTail_frame env (checkStatus (postCollisions s nid))
    (updateMissiles (updateRockets s nid).1 (updateRockets s nid).2).2
  exact ⟨t1, t2, t3, t4⟩

lemma all_destroyed_congr {l1 l2 : List Tower}
    (h : l1.map Tower.destroyed = l2.map Tower.destroyed) :
    (l1.all fun t => t.destroyed) = (l2.all fun t => t.destroyed) := by
  have key : ∀ l : List Tower,
      (l.all fun t => t.destroyed) = (l.map Tower.destroyed).all id := by
    intro l
    induction l with
    | nil => rfl
    | cons a l ih => simp [ih]
  rw [key l1, key l2, h]

end

end Defense

namespace Defense

noncomputable section

open scoped Classical

/-! ## C1 and C2 -/

/-- C1: in PLAYING, at a tick whose cumulative score has reached at
least `level × 500`, as long as not every tower is destroyed the status
becomes WON when the level is at least 10 and LEVEL_UP when it is below
10 (the all-towers-destroyed case is C2's: there the loss check
overrides with LOST). -/
theorem C1_score_threshold_transition (env : Env) (s : GameState) (nid : ℕ)
    (hst : s.status = GameStatus.PLAYING)
    (hscore : (gameLoop env s nid).1.score ≥
      ((gameLoop env s nid).1.level : ℤ) * 500)
    (halive : ¬ ((gameLoop env s nid).1.towers.all fun t => t.destroyed) = true) :
    (gameLoop env s nid).1.status =
      (if (gameLoop env s nid).1.level ≥ 10 then GameStatus.WON
       else GameStatus.LEVEL_UP) := by
  have hgl : gameLoop env s nid = update env s nid := by simp [gameLoop, hst]
  rw [hgl] at hscore halive ⊢
  obtain ⟨h1, h2, h3, h4⟩ := update_frame env s nid
  rw [h2, h3] at hscore
  rw [h3]
  have hall : ¬ ((postCollisions s nid).towers.all fun t => t.destroyed) = true := by
    rw [← all_destroyed_congr h4]
    exact halive
  rw [h1]
  unfold checkStatus
  simp only [if_neg hall, if_pos hscore]

theorem C1_score_threshold_transition_witness :
    (gameLoop quietEnv
      ⟨GameStatus.PLAYING, 500, 1, [], [], [], [],
       [⟨0, 40, 560, 40, 560, 300, 300, 5, 5, false⟩], [], [], 0, 0⟩ 0).1.status =
      GameStatus.LEVEL_UP := by
  have hpc : postCollisions
      ⟨GameStatus.PLAYING, 500, 1, [], [], [], [],
       [⟨0, 40, 560, 40, 560, 300, 300, 5, 5, false⟩], [], [], 0, 0⟩ 0 =
      ⟨GameStatus.PLAYING, 500, 1, [], [], [], [],
       [⟨0, 40, 560, 40, 560, 300, 300, 5, 5, false⟩], [], [], 0, 0⟩ := by
    simp [postCollisions, updateRockets, updateMissiles, updateExplosions,
      rocketsLoop, missilesLoop, explosionsLoop]
  have hgl : gameLoop quietEnv
      ⟨GameStatus.PLAYING, 500, 1, [], [], [], [],
       [⟨0, 40, 560, 40, 560, 300, 300, 5, 5, false⟩], [], [], 0, 0⟩ 0 =
      update quietEnv
      ⟨GameStatus.PLAYING, 500, 1, [], [], [], [],
       [⟨0, 40, 560, 40, 560, 300, 300, 5, 5, false⟩], [], [], 0, 0⟩ 0 := by
    simp [gameLoop]
  obtain ⟨h1, h2, h3, h4⟩ := update_frame quietEnv
    ⟨GameStatus.PLAYING, 500, 1, [], [], [], [],
     [⟨0, 40, 560, 40, 560, 300, 300, 5, 5, false⟩], [], [], 0, 0⟩ 0
  rw [hpc] at h2 h3 h4
  have happ := C1_score_threshold_transition quietEnv
    ⟨GameStatus.PLAYING, 500, 1, [], [], [], [],
     [⟨0, 40, 560, 40, 560, 300, 300, 5, 5, false⟩], [], [], 0, 0⟩ 0 rfl
    (by rw [hgl, h2, h3]; norm_num)
    (by rw [hgl, all_destroyed_congr h4]; simp)
  rw [hgl] at happ ⊢
  rw [happ, h3]
  norm_num

/-- C2: in PLAYING, if at the end of a tick every tower is destroyed,
the status is LOST regardless of the score — the loss check runs after
the score check and overwrites any WON or LEVEL_UP set in the same
tick. -/
theorem C2_all_towers_destroyed_lost (env : Env) (s : GameState) (nid : ℕ)
    (hst : s.status = GameStatus.PLAYING)
    (hdead : ((gameLoop env s nid).1.towers.all fun t => t.destroyed) = true) :
    (gameLoop env s nid).1.status = GameStatus.LOST := by
  have hgl : gameLoop env s nid = update env s nid := by simp [gameLoop, hst]
  rw [hgl] at hdead ⊢
  obtain ⟨h1, _, _, h4⟩ := update_frame env s nid
  have hall : ((postCollisions s nid).towers.all fun t => t.destroyed) = true := by
    rw [← all_destroyed_congr h4]
    exact hdead
  rw [h1]
  unfold checkStatus
  simp only [if_pos hall]

theorem C2_all_towers_destroyed_lost_witness :
    (gameLoop quietEnv
      ⟨GameStatus.PLAYING, 500, 1, [], [], [], [],
       [⟨0, 40, 560, 40, 560, 300, 300, 5, 0, true⟩], [], [], 0, 0⟩ 0).1.status =
      GameStatus.LOST := by
  have hpc : postCollisions
      ⟨GameStatus.PLAYING, 500, 1, [], [], [], [],
       [⟨0, 40, 560, 40, 560, 300, 300, 5, 0, true⟩], [], [], 0, 0⟩ 0 =
      ⟨GameStatus.PLAYING, 500, 1, [], [], [], [],
       [⟨0, 40, 560, 40, 560, 300, 300, 5, 0, true⟩], [], [], 0, 0⟩ := by
    simp [postCollisions, updateRockets, updateMissiles, updateExplosions,
      rocketsLoop, missilesLoop, explosionsLoop]
  have hgl : gameLoop quietEnv
      ⟨GameStatus.PLAYING, 500, 1, [], [], [], [],
       [⟨0, 40, 560, 40, 560, 300, 300, 5, 0, true⟩], [], [], 0, 0⟩ 0 =
      update quietEnv
      ⟨GameStatus.PLAYING, 500, 1, [], [], [], [],
       [⟨0, 40, 560, 40, 560, 300, 300, 5, 0, true⟩], [], [], 0, 0⟩ 0 := by
    simp [gameLoop]
  obtain ⟨h1, h2, h3, h4⟩ := update_frame quietEnv
    ⟨GameStatus.PLAYING, 500, 1, [], [], [], [],
     [⟨0, 40, 560, 40, 560, 300, 300, 5, 0, true⟩], [], [], 0, 0⟩ 0
  rw [hpc] at h4
  exact C2_all_towers_destroyed_lost quietEnv
    ⟨GameStatus.PLAYING, 500, 1, [], [], [], [],
     [⟨0, 40, 560, 40, 560, 300, 300, 5, 0, true⟩], [], [], 0, 0⟩ 0 rfl
    (by rw [hgl, all_destroyed_congr h4]; simp)

end

end Defense

namespace Defense

noncomputable section

open scoped Classical

/-! ## Ammo preservation through the tick -/

lemma damageTower_ammo (pt : Point) (t : Tower) :
    (damageTower pt t).ammo = t.ammo := by
  unfold damageTower
  split_ifs <;> rfl

lemma rocketVisit_ammo (s : GameState) (nid k : ℕ) :
    (rocketVisit s nid k).1.towers.map Tower.ammo = s.towers.map Tower.ammo := by
  unfold rocketVisit
  dsimp only
  repeat' split
  all_goals simp [List.map_map, Function.comp, damageTower_ammo]

lemma rocketsLoop_ammo (ks : List ℕ) : ∀ (s : GameState) (nid : ℕ),
    (rocketsLoop ks s nid).1.towers.map Tower.ammo = s.towers.map Tower.ammo := by
  induction ks with
  | nil => intro s nid; rfl
  | cons k ks ih =>
    intro s nid
    rw [show rocketsLoop (k :: ks) s nid =
      rocketsLoop ks (rocketVisit s nid k).1 (rocketVisit s nid k).2 from rfl]
    rw [ih, rocketVisit_ammo]

lemma missileVisit_towers (s : GameState) (nid k : ℕ) :
    (missileVisit s nid k).1.towers = s.towers := by
  unfold missileVisit
  dsimp only
  repeat' split
  all_goals rfl

lemma missilesLoop_towers (ks : List ℕ) : ∀ (s : GameState) (nid : ℕ),
    (missilesLoop ks s nid).1.towers = s.towers := by
  induction ks with
  | nil => intro s nid; rfl
  | cons k ks ih =>
    intro s nid
    rw [show missilesLoop (k :: ks) s nid =
      missilesLoop ks (missileVisit s nid k).1 (missileVisit s nid k).2 from rfl]
    rw [ih, missileVisit_towers]

lemma explosionVisit_towers (s : GameState) (k : ℕ) :
    (explosionVisit s k).towers = s.towers := by
  unfold explosionVisit
  dsimp only
  repeat' split
  all_goals rfl

lemma explosionsLoop_towers (ks : List ℕ) : ∀ (s : GameState),
    (explosionsLoop ks s).towers = s.towers := by
  induction ks with
  | nil => intro s; rfl
  | cons k ks ih =>
    intro s
    rw [show explosionsLoop (k :: ks) s = explosionsLoop ks (explosionVisit s k) from rfl]
    rw [ih, explosionVisit_towers]

lemma formationTower_ammo (f i : ℕ) (t : Tower) :
    (formationTower f i t).ammo = t.ammo := by
  unfold formationTower
  split_ifs <;> rfl

lemma formationTowers_ammo (f : ℕ) : ∀ (i : ℕ) (ts : List Tower),
    (formationTowers f i ts).map Tower.ammo = ts.map Tower.ammo := by
  intro i ts
  induction ts generalizing i with
  | nil => rfl
  | cons t ts ih => simp [formationTowers, formationTower_ammo, ih]

lemma updateTail_ammo (env : Env) (s : GameState) (nid : ℕ) :
    (updateTail env s nid).1.towers.map Tower.ammo = s.towers.map Tower.ammo := by
  unfold updateTail updateMeteors updatePlanes
  obtain ⟨-, -, -, m4⟩ := spawnMeteor_frame env (updatePlayerFormation s) nid
  obtain ⟨-, -, -, l4⟩ := meteorsLoop_frame
    (List.range (spawnMeteor env (updatePlayerFormation s) nid).1.meteors.length)
    (spawnMeteor env (updatePlayerFormation s) nid).1
  set g := meteorsLoop
    (List.range (spawnMeteor env (updatePlayerFormation s) nid).1.meteors.length)
    (spawnMeteor env (updatePlayerFormation s) nid).1 with hg
  obtain ⟨-, -, -, p4⟩ := planesLoop_frame (List.range g.planes.length) g
  set h := planesLoop (List.range g.planes.length) g with hh
  obtain ⟨-, -, -, q4⟩ := spawnPlanes_frame env h
    (spawnMeteor env (updatePlayerFormation s) nid).2
  set i := spawnPlanes env h (spawnMeteor env (updatePlayerFormation s) nid).2 with hi
  obtain ⟨-, -, -, r4⟩ := spawnRocket_frame env i.1 i.2
  rw [r4, q4, p4, l4, m4]
  exact formationTowers_ammo _ 0 s.towers

lemma update_ammo (env : Env) (s : GameState) (nid : ℕ) :
    (update env s nid).1.towers.map Tower.ammo = s.towers.map Tower.ammo := by
  rw [update_eq_tail, updateTail_ammo]
  rw [show (checkStatus (postCollisions s nid)).towers = (postCollisions s nid).towers from rfl]
  unfold postCollisions updateExplosions updateMissiles updateRockets
  rw [explosionsLoop_towers, missilesLoop_towers]
  exact rocketsLoop_ammo _ s nid

lemma map_eq_length {α β : Type} {f : α → β} {l1 l2 : List α}
    (h : l1.map f = l2.map f) : l1.length = l2.length := by
  have := congrArg List.length h
  simpa using this

lemma handleCanvasClick_towers (x y : ℝ) (s : GameState) (nid : ℕ) :
    (handleCanvasClick x y s nid).1.towers = s.towers ∨
    ∃ j t, s.towers.get? j = some t ∧ t.ammo > 0 ∧
      (handleCanvasClick x y s nid).1.towers =
        s.towers.set j { t with ammo := t.ammo - 1 } := by
  unfold handleCanvasClick
  split_ifs with hst
  · cases hb : bestTowerAux x s.towers 0 none with
    | none => simp [hb]
    | some pr =>
      simp only [hb]
      cases hg : s.towers.get? pr.1 with
      | none => simp [hg]
      | some tw =>
        simp only [hg]
        right
        refine ⟨pr.1, tw, hg, ?_, rfl⟩
        rcases bta_sound x s.towers 0 none pr hb with heq | ⟨j, t0, hj, hidx, _, h2, _⟩
        · cases heq
        · have hg2 : s.towers.get? pr.1 = some t0 := by rw [hidx]; simpa using hj
          rw [hg] at hg2
          injection hg2 with hg3
          rw [hg3]
          exact h2
  · left; rfl

lemma runCmd_ammo (c : Cmd) (p : GameState × ℕ) :
    ((runCmd c p).1.towers.length = p.1.towers.length) ∧
    (∀ i t t', p.1.towers.get? i = some t →
       (runCmd c p).1.towers.get? i = some t' →
       t'.ammo ≤ t.ammo ∧ (0 ≤ t.ammo → 0 ≤ t'.ammo)) := by
  cases c with
  | tick env =>
    have hm : (gameLoop env p.1 p.2).1.towers.map Tower.ammo =
        p.1.towers.map Tower.ammo := by
      unfold gameLoop
      split_ifs
      · exact update_ammo env p.1 p.2
      · rfl
    refine ⟨map_eq_length hm, ?_⟩
    intro i t t' hget hget'
    have hmi := congrArg (fun l => l.get? i) hm
    simp only [List.get?_map] at hmi
    rw [show runCmd (Cmd.tick env) p = gameLoop env p.1 p.2 from rfl] at hget'
    rw [hget, hget'] at hmi
    simp only [Option.map_some'] at hmi
    injection hmi with hmi2
    exact ⟨le_of_eq hmi2, fun h0 => hmi2 ▸ h0⟩
  | fire x y =>
    rcases handleCanvasClick_towers x y p.1 p.2 with heq | ⟨j, tw, hg, hpos, heq⟩
    · rw [show runCmd (Cmd.fire x y) p = handleCanvasClick x y p.1 p.2 from rfl, heq]
      refine ⟨rfl, ?_⟩
      intro i t t' h1 h2
      rw [h1] at h2
      injection h2 with h
      subst h
      exact ⟨le_rfl, id⟩
    · rw [show runCmd (Cmd.fire x y) p = handleCanvasClick x y p.1 p.2 from rfl, heq]
      refine ⟨by simp, ?_⟩
      intro i t t' h1 h2
      by_cases hij : j = i
      · subst hij
        have hi : j < p.1.towers.length := by
          rcases List.get?_eq_some.mp h1 with ⟨h, -⟩
          exact h
        rw [List.get?_set_eq_of_lt _ hi] at h2
        injection h2 with h2'
        rw [hg] at h1
        injection h1 with h1'
        subst h1'
        rw [← h2']
        exact ⟨by simp, fun _ => by simp; omega⟩
      · rw [List.get?_set_ne _ _ hij] at h2
        rw [h1] at h2
        injection h2 with h
        subst h
        exact ⟨le_rfl, id⟩

lemma runCmds_ammo (cmds : List Cmd) : ∀ (p : GameState × ℕ),
    ((runCmds cmds p).1.towers.length = p.1.towers.length) ∧
    (∀ i t t', p.1.towers.get? i = some t →
       (runCmds cmds p).1.towers.get? i = some t' →
       t'.ammo ≤ t.ammo ∧ (0 ≤ t.ammo → 0 ≤ t'.ammo)) := by
  induction cmds with
  | nil =>
    intro p
    refine ⟨rfl, ?_⟩
    intro i t t' h1 h2
    rw [show runCmds [] p = p from rfl, h1] at h2
    injection h2 with h
    subst h
    exact ⟨le_rfl, id⟩
  | cons c cs ih =>
    intro p
    obtain ⟨hl1, hp1⟩ := runCmd_ammo c p
    obtain ⟨hl2, hp2⟩ := ih (runCmd c p)
    rw [show runCmds (c :: cs) p = runCmds cs (runCmd c p) from rfl]
    refine ⟨hl2.trans hl1, ?_⟩
    intro i t t' h1 h2
    have hi : i < p.1.towers.length := by
      rcases List.get?_eq_some.mp h1 with ⟨h, -⟩
      exact h
    have hi2 : i < (runCmd c p).1.towers.length := by rw [hl1]; exact hi
    have hm : (runCmd c p).1.towers.get? i =
        some ((runCmd c p).1.towers.get ⟨i, hi2⟩) := List.get?_eq_get hi2
    obtain ⟨a1, a2⟩ := hp1 i t _ h1 hm
    obtain ⟨b1, b2⟩ := hp2 i _ t' hm h2
    exact ⟨le_trans b1 a1, fun h0 => b2 (a2 h0)⟩

/-! ## C8 -/

/-- C8: along any sequence of scheduled ticks and fire commands, the
tower list keeps its length, each tower's ammo never increases and —
starting from non-negative ammo — never becomes negative (a fired shot
deducts exactly one, guarded by `ammo > 0`); moreover a tick by itself
never changes any tower's ammo. -/
theorem C8_ammo_monotone_nonnegative (cmds : List Cmd) (s : GameState) (nid : ℕ) :
    ((runCmds cmds (s, nid)).1.towers.length = s.towers.length) ∧
    (∀ i t t', s.towers.get? i = some t →
       (runCmds cmds (s, nid)).1.towers.get? i = some t' →
       t'.ammo ≤ t.ammo ∧ (0 ≤ t.ammo → 0 ≤ t'.ammo)) ∧
    (∀ (env : Env) (s1 : GameState) (nid1 : ℕ),
       (update env s1 nid1).1.towers.map Tower.ammo =
         s1.towers.map Tower.ammo) := by
  obtain ⟨h1, h2⟩ := runCmds_ammo cmds (s, nid)
  exact ⟨h1, h2, fun env s1 nid1 => update_ammo env s1 nid1⟩

end

end Defense

namespace Defense

noncomputable section

open scoped Classical

/-! ## Helper lemmas for splice-during-iteration behaviour -/

lemma set_eraseIdx {α : Type} (l : List α) (k : ℕ) (v : α) :
    (l.set k v).eraseIdx k = l.eraseIdx k := by
  induction l generalizing k with
  | nil => rfl
  | cons a l ih =>
    cases k with
    | zero => rfl
    | succ k => simp only [List.set, List.eraseIdx]; rw [ih]

lemma get?_eraseIdx_lt {α : Type} (l : List α) {j k : ℕ} (h : k < j) :
    (l.eraseIdx j).get? k = l.get? k := by
  rw [List.get?_eq_getElem?, List.get?_eq_getElem?]
  exact List.getElem?_eraseIdx_of_lt l j k h

lemma mem_of_not_mem_eraseIdx {α : Type} :
    ∀ (l : List α) (k : ℕ) (r r' : α),
      l.get? k = some r → r' ∈ l → r' ∉ l.eraseIdx k → r' = r := by
  intro l
  induction l with
  | nil => intro k r r' h; cases h
  | cons a l ih =>
    intro k r r' hget hmem hnot
    cases k with
    | zero =>
      injection hget with hget2
      rcases List.mem_cons.mp hmem with rfl | hm
      · exact hget2.symm ▸ rfl
      · exact absurd hm hnot
    | succ k =>
      rcases List.mem_cons.mp hmem with rfl | hm
      · exact absurd (List.mem_cons_self _ _) hnot
      · exact ih k r r' hget hm fun hc => hnot (List.mem_cons_of_mem _ hc)

lemma rocketVisit_get_lt (s : GameState) (nid : ℕ) {j k : ℕ} (h : k < j) :
    (rocketVisit s nid j).1.rockets.get? k = s.rockets.get? k := by
  unfold rocketVisit
  dsimp only
  repeat' split
  · rfl
  · show ((s.rockets.set j _).eraseIdx j).get? k = s.rockets.get? k
    rw [get?_eraseIdx_lt _ h, List.get?_set_ne _ _ (by omega : j ≠ k)]
  · show (s.rockets.set j _).get? k = s.rockets.get? k
    rw [List.get?_set_ne _ _ (by omega : j ≠ k)]

lemma rocketsLoop_get_lt : ∀ (ks : List ℕ) (s : GameState) (nid k : ℕ),
    (∀ j ∈ ks, k < j) →
    (rocketsLoop ks s nid).1.rockets.get? k = s.rockets.get? k := by
  intro ks
  induction ks with
  | nil => intro s nid k _; rfl
  | cons j ks ih =>
    intro s nid k hks
    rw [show rocketsLoop (j :: ks) s nid =
      rocketsLoop ks (rocketVisit s nid j).1 (rocketVisit s nid j).2 from rfl]
    rw [ih (rocketVisit s nid j).1 (rocketVisit s nid j).2 k
      fun i hi => hks i (List.mem_cons_of_mem _ hi)]
    exact rocketVisit_get_lt s nid (hks j (List.mem_cons_self _ _))

/-! ## C3 -/

/-- C3 (amended): when the attacker pass visits index `k` holding a
rocket whose moved position has reached or passed its target's y, that
visit pushes exactly one blast at the moved position, maps the impact
damage over every city and tower (a non-destroyed one within
`|Δx| < 30 ∧ |Δy| < 20` loses exactly 1 health and is flagged destroyed
exactly when the result is ≤ 0; any other is untouched), and splices the
rocket out.  However, because the pass splices the array it iterates,
the element that shifts into the removed slot is not visited again in
the same pass (last conjunct): an attacker immediately following a
removed one is left unprocessed — neither moved, exploded nor removed —
until a later tick. -/
theorem C3_rocket_impact (s : GameState) (nid k : ℕ) (r : Rocket)
    (hget : s.rockets.get? k = some r)
    (hhit : (moveRocket r).current.y ≥ r.target.y) :
    ((rocketVisit s nid k).1.rockets = s.rockets.eraseIdx k) ∧
    ((rocketVisit s nid k).1.explosions = s.explosions ++
       [⟨nid, (moveRocket r).current.x, (moveRocket r).current.y, 0,
         EXPLOSION_MAX_RADIUS, true⟩]) ∧
    ((rocketVisit s nid k).1.cities =
       s.cities.map (damageCity (moveRocket r).current)) ∧
    ((rocketVisit s nid k).1.towers =
       s.towers.map (damageTower (moveRocket r).current)) ∧
    ((rocketVisit s nid k).2 = nid + 1) ∧
    (∀ (pt : Point) (c : City),
       (c.destroyed = false ∧ |c.x - pt.x| < 30 ∧ |c.y - pt.y| < 20 →
          (damageCity pt c).health = c.health - 1 ∧
          ((damageCity pt c).destroyed = true ↔ c.health - 1 ≤ 0)) ∧
       (¬ (c.destroyed = false ∧ |c.x - pt.x| < 30 ∧ |c.y - pt.y| < 20) →
          damageCity pt c = c)) ∧
    (∀ (pt : Point) (t : Tower),
       (t.destroyed = false ∧ |t.x - pt.x| < 30 ∧ |t.y - pt.y| < 20 →
          (damageTower pt t).health = t.health - 1 ∧
          ((damageTower pt t).destroyed = true ↔ t.health - 1 ≤ 0)) ∧
       (¬ (t.destroyed = false ∧ |t.x - pt.x| < 30 ∧ |t.y - pt.y| < 20) →
          damageTower pt t = t)) ∧
    (∀ (ks : List ℕ) (s1 : GameState) (nid1 k1 : ℕ), (∀ j ∈ ks, k1 < j) →
       (rocketsLoop ks s1 nid1).1.rockets.get? k1 = s1.rockets.get? k1) := by
  have hvisit : rocketVisit s nid k =
      ({ s with
          rockets := (s.rockets.set k (moveRocket r)).eraseIdx k,
          explosions := s.explosions ++
            [⟨nid, (moveRocket r).current.x, (moveRocket r).current.y, 0,
              EXPLOSION_MAX_RADIUS, true⟩],
          cities := s.cities.map (damageCity (moveRocket r).current),
          towers := s.towers.map (damageTower (moveRocket r).current) }, nid + 1) := by
    unfold rocketVisit
    rw [hget]
    dsimp only
    rw [if_pos (show (moveRocket r).current.y ≥ (moveRocket r).target.y from hhit)]
  refine ⟨?_, ?_, ?_, ?_, ?_, ?_, ?_,
    fun ks s1 nid1 k1 h => rocketsLoop_get_lt ks s1 nid1 k1 h⟩
  · rw [hvisit]; exact set_eraseIdx s.rockets k (moveRocket r)
  · rw [hvisit]
  · rw [hvisit]
  · rw [hvisit]
  · rw [hvisit]
  · intro pt c
    constructor
    · intro hc
      unfold damageCity
      rw [if_pos hc]
      constructor
      · rfl
      · dsimp only
        rw [hc.1]
        split_ifs with hh
        · simp [hh]
        · simp [hh]
    · intro hc
      unfold damageCity
      rw [if_neg hc]
  · intro pt t
    constructor
    · intro ht
      unfold damageTower
      rw [if_pos ht]
      constructor
      · rfl
      · dsimp only
        rw [ht.1]
        split_ifs with hh
        · simp [hh]
        · simp [hh]
    · intro ht
      unfold damageTower
      rw [if_neg ht]

end

end Defense

namespace Defense

noncomputable section

open scoped Classical

/-! ## The beam scan's behaviour -/

lemma laserRockets_spec (mstart mcur : Point) : ∀ (ks : List ℕ) (rs : List Rocket) (sc : ℤ),
    ((laserRockets mstart mcur ks rs sc).1.Sublist rs) ∧
    ((laserRockets mstart mcur ks rs sc).2 =
       sc + SCORE_PER_ROCKET *
         ((rs.length : ℤ) - ((laserRockets mstart mcur ks rs sc).1.length : ℤ))) ∧
    (∀ r ∈ rs, r ∉ (laserRockets mstart mcur ks rs sc).1 →
       distToSegment r.current mstart mcur < 8) := by
  intro ks
  induction ks with
  | nil =>
    intro rs sc
    refine ⟨List.Sublist.refl rs, ?_, ?_⟩
    · show sc = sc + SCORE_PER_ROCKET * ((rs.length : ℤ) - (rs.length : ℤ))
      ring
    · intro r hr hnot
      exact absurd hr hnot
  | cons k ks ih =>
    intro rs sc
    cases hk : rs.get? k with
    | none =>
      have heq : laserRockets mstart mcur (k :: ks) rs sc =
          laserRockets mstart mcur ks rs sc := by
        simp only [laserRockets, hk]
      rw [heq]
      exact ih rs sc
    | some r =>
      by_cases hd : distToSegment r.current mstart mcur < 8
      · obtain ⟨s1, s2, s3⟩ := ih (rs.eraseIdx k) (sc + SCORE_PER_ROCKET)
        have heq : laserRockets mstart mcur (k :: ks) rs sc =
            laserRockets mstart mcur ks (rs.eraseIdx k) (sc + SCORE_PER_ROCKET) := by
          simp only [laserRockets, hk]
          rw [if_pos hd]
        rw [heq]
        have hklen : k < rs.length := by
          rcases List.get?_eq_some.mp hk with ⟨h, -⟩
          exact h
        have hlen := List.length_eraseIdx_add_one hklen
        refine ⟨s1.trans (List.eraseIdx_sublist rs k), ?_, ?_⟩
        · rw [s2]
          have hcast : ((rs.eraseIdx k).length : ℤ) = (rs.length : ℤ) - 1 := by omega
          rw [hcast]
          ring
        · intro r' hr' hnot
          by_cases hmem : r' ∈ rs.eraseIdx k
          · exact s3 r' hmem hnot
          · rw [mem_of_not_mem_eraseIdx rs k r r' hk hr' hmem]
            exact hd
      · have heq : laserRockets mstart mcur (k :: ks) rs sc =
            laserRockets mstart mcur ks rs sc := by
          simp only [laserRockets, hk]
          rw [if_neg hd]
        rw [heq]
        exact ih rs sc

lemma laserRockets_get_lt (mstart mcur : Point) :
    ∀ (ks : List ℕ) (rs : List Rocket) (sc : ℤ) (k : ℕ),
      (∀ j ∈ ks, k < j) →
      (laserRockets mstart mcur ks rs sc).1.get? k = rs.get? k := by
  intro ks
  induction ks with
  | nil => intro rs sc k _; rfl
  | cons j ks ih =>
    intro rs sc k hks
    have hkj : k < j := hks j (List.mem_cons_self _ _)
    have htail : ∀ i ∈ ks, k < i := fun i hi => hks i (List.mem_cons_of_mem _ hi)
    cases hj : rs.get? j with
    | none =>
      have heq : laserRockets mstart mcur (j :: ks) rs sc =
          laserRockets mstart mcur ks rs sc := by
        simp only [laserRockets, hj]
      rw [heq]
      exact ih rs sc k htail
    | some r =>
      by_cases hd : distToSegment r.current mstart mcur < 8
      · have heq : laserRockets mstart mcur (j :: ks) rs sc =
            laserRockets mstart mcur ks (rs.eraseIdx j) (sc + SCORE_PER_ROCKET) := by
          simp only [laserRockets, hj]
          rw [if_pos hd]
        rw [heq, ih _ _ k htail]
        exact get?_eraseIdx_lt rs hkj
      · have heq : laserRockets mstart mcur (j :: ks) rs sc =
            laserRockets mstart mcur ks rs sc := by
          simp only [laserRockets, hj]
          rw [if_neg hd]
        rw [heq]
        exact ih rs sc k htail

/-! ## C4 -/

/-- C4 (amended): one interceptor's beam scan over the attacker store
removes a sub-collection of the attackers, adds exactly
`SCORE_PER_ROCKET` (20) to the score per removed attacker — no attacker
is counted more than once, as a removed attacker leaves the store — and
every removed attacker was within 8 units of the beam.  Each visit of an
in-range attacker removes it at once (fourth conjunct); however, because
the scan splices the array it iterates, the attacker that shifts into a
removed slot is skipped for the remainder of that scan (last conjunct),
so an in-range attacker immediately following a removed one can survive
the scan. -/
theorem C4_beam_destroys_attackers (mstart mcur : Point) (rs : List Rocket) (sc : ℤ) :
    ((laserRockets mstart mcur (List.range rs.length) rs sc).1.Sublist rs) ∧
    ((laserRockets mstart mcur (List.range rs.length) rs sc).2 =
       sc + SCORE_PER_ROCKET *
         ((rs.length : ℤ) -
          ((laserRockets mstart mcur (List.range rs.length) rs sc).1.length : ℤ))) ∧
    (∀ r ∈ rs, r ∉ (laserRockets mstart mcur (List.range rs.length) rs sc).1 →
       distToSegment r.current mstart mcur < 8) ∧
    (∀ (ks : List ℕ) (rs1 : List Rocket) (sc1 : ℤ) (k : ℕ) (r : Rocket),
       rs1.get? k = some r → distToSegment r.current mstart mcur < 8 →
       laserRockets mstart mcur (k :: ks) rs1 sc1 =
         laserRockets mstart mcur ks (rs1.eraseIdx k) (sc1 + SCORE_PER_ROCKET)) ∧
    (∀ (ks : List ℕ) (rs1 : List Rocket) (sc1 : ℤ) (k : ℕ),
       (∀ j ∈ ks, k < j) →
       (laserRockets mstart mcur ks rs1 sc1).1.get? k = rs1.get? k) := by
  obtain ⟨h1, h2, h3⟩ := laserRockets_spec mstart mcur (List.range rs.length) rs sc
  refine ⟨h1, h2, h3, ?_, laserRockets_get_lt mstart mcur⟩
  intro ks rs1 sc1 k r hget hd
  simp only [laserRockets, hget]
  rw [if_pos hd]

end

end Defense

namespace Defense

noncomputable section

open scoped Classical

theorem C3_rocket_impact_witness :
    (rocketVisit
      ⟨GameStatus.PLAYING, 0, 1,
       [⟨0, ⟨100, 100⟩, ⟨100, 100⟩, ⟨100, 50⟩, 1, 0⟩],
       [], [], [], [], [], [], 0, 0⟩ 0 0).1.rockets = [] ∧
    (rocketVisit
      ⟨GameStatus.PLAYING, 0, 1,
       [⟨0, ⟨100, 100⟩, ⟨100, 100⟩, ⟨100, 50⟩, 1, 0⟩],
       [], [], [], [], [], [], 0, 0⟩ 0 0).1.explosions.length = 1 := by
  have h := C3_rocket_impact
    ⟨GameStatus.PLAYING, 0, 1,
     [⟨0, ⟨100, 100⟩, ⟨100, 100⟩, ⟨100, 50⟩, 1, 0⟩],
     [], [], [], [], [], [], 0, 0⟩ 0 0
    ⟨0, ⟨100, 100⟩, ⟨100, 100⟩, ⟨100, 50⟩, 1, 0⟩ rfl
    (by norm_num [moveRocket])
  refine ⟨?_, ?_⟩
  · rw [h.1]
    rfl
  · rw [h.2.1]
    rfl

/-- C3 counterexample: two attackers, both already at or past their
targets' y (and with heading 0 they stay there after moving), in
consecutive store slots.  The claim demands that the tick remove both
and spawn two blasts; in the code the splice of the first shifts the
second under the iteration cursor, so the tick leaves one attacker in
the store and spawns only one blast. -/
theorem C3_skip_counterexample :
    (gameLoop quietEnv
      ⟨GameStatus.PLAYING, 0, 1,
       [⟨0, ⟨100, 100⟩, ⟨100, 100⟩, ⟨100, 50⟩, 1, 0⟩,
        ⟨1, ⟨200, 100⟩, ⟨200, 100⟩, ⟨200, 50⟩, 1, 0⟩],
       [], [], [], [⟨0, 40, 560, 40, 560, 300, 300, 5, 5, false⟩], [], [], 0, 0⟩
      0).1.rockets.length = 1 ∧
    (gameLoop quietEnv
      ⟨GameStatus.PLAYING, 0, 1,
       [⟨0, ⟨100, 100⟩, ⟨100, 100⟩, ⟨100, 50⟩, 1, 0⟩,
        ⟨1, ⟨200, 100⟩, ⟨200, 100⟩, ⟨200, 50⟩, 1, 0⟩],
       [], [], [], [⟨0, 40, 560, 40, 560, 300, 300, 5, 5, false⟩], [], [], 0, 0⟩
      0).1.explosions.length = 1 := by
  have hs1 : ¬ (Real.sqrt 9801 < (3 / 2 : ℝ)) := by
    have h99 : Real.sqrt 9801 = 99 := by
      rw [show (9801 : ℝ) = 99 ^ 2 by norm_num]
      exact Real.sqrt_sq (by norm_num)
    rw [h99]
    norm_num
  have hr : List.range 2 = [0, 1] := rfl
  have hr1 : List.range 1 = [0] := rfl
  constructor <;>
  norm_num [gameLoop, update, updateRockets, rocketsLoop, rocketVisit, moveRocket,
    updateMissiles, missilesLoop, updateExplosions, explosionsLoop, explosionVisit,
    expStep, blastRockets, blastPlanes, checkStatus, updatePlayerFormation,
    formationTowers, formationTower, spawnMeteor, updateMeteors, meteorsLoop,
    spawnPlanes, updatePlanes, planesLoop, spawnRocket, quietEnv, damageTower,
    damageCity, EXPLOSION_MAX_RADIUS, EXPLOSION_SPEED, SPAWN_RATE, SCORE_PER_ROCKET,
    GAME_WIDTH, GAME_HEIGHT, hr, hr1, hs1, TOWER_POSITIONS]

end

end Defense

namespace Defense

noncomputable section

open scoped Classical

/-- C4 counterexample: one stationary interceptor whose beam is the
point (0, 0) and two attackers sitting at (0, 0), both within 8 units of
the beam (last conjunct).  The claim demands that the tick remove both
and score 40; in the code the splice of the first shifts the second
under the inner scan's cursor, so the tick leaves one in-range attacker
in the store and scores only 20. -/
theorem C4_skip_counterexample :
    (gameLoop quietEnv
      ⟨GameStatus.PLAYING, 0, 1,
       [⟨0, ⟨0, 0⟩, ⟨0, 0⟩, ⟨0, 100⟩, 0, 0⟩,
        ⟨1, ⟨0, 0⟩, ⟨0, 0⟩, ⟨0, 100⟩, 0, 0⟩],
       [⟨0, ⟨0, 0⟩, ⟨0, 0⟩, ⟨500, 0⟩, 0, 0, 0⟩],
       [], [], [⟨0, 40, 560, 40, 560, 300, 300, 5, 5, false⟩], [], [], 0, 0⟩
      0).1.rockets.length = 1 ∧
    (gameLoop quietEnv
      ⟨GameStatus.PLAYING, 0, 1,
       [⟨0, ⟨0, 0⟩, ⟨0, 0⟩, ⟨0, 100⟩, 0, 0⟩,
        ⟨1, ⟨0, 0⟩, ⟨0, 0⟩, ⟨0, 100⟩, 0, 0⟩],
       [⟨0, ⟨0, 0⟩, ⟨0, 0⟩, ⟨500, 0⟩, 0, 0, 0⟩],
       [], [], [⟨0, 40, 560, 40, 560, 300, 300, 5, 5, false⟩], [], [], 0, 0⟩
      0).1.score = 20 ∧
    distToSegment ⟨0, 0⟩ ⟨0, 0⟩ ⟨0, 0⟩ < 8 := by
  have hs0 : ∀ x : ℝ, ¬ (Real.sqrt x < 0) := fun x => not_lt.mpr (Real.sqrt_nonneg x)
  have hr : List.range 2 = [0, 1] := rfl
  have hr1 : List.range 1 = [0] := rfl
  refine ⟨?_, ?_, ?_⟩ <;>
  norm_num [gameLoop, update, updateRockets, rocketsLoop, rocketVisit, moveRocket,
    updateMissiles, missilesLoop, missileVisit, moveMissile, laserRockets, laserPlanes,
    distToSegment, updateExplosions, explosionsLoop, explosionVisit,
    expStep, blastRockets, blastPlanes, checkStatus, updatePlayerFormation,
    formationTowers, formationTower, spawnMeteor, updateMeteors, meteorsLoop,
    spawnPlanes, updatePlanes, planesLoop, spawnRocket, quietEnv, damageTower,
    damageCity, EXPLOSION_MAX_RADIUS, EXPLOSION_SPEED, SPAWN_RATE, SCORE_PER_ROCKET,
    GAME_WIDTH, GAME_HEIGHT, MISSILE_SPEED, hr, hr1, hs0, TOWER_POSITIONS]

end

end Defense
